import Mathlib

/-!
Verification development for the Zone Zero lobby server
(`zone-zero-server.py`).  The server keeps two process-wide maps:
`lobbies : Dict[str, dict]` keyed by the creator handle and
`clients : Dict[str, List[WebSocket]]` keyed by the lobby id.  We embed
both as association lists with Python-dict semantics (update in place,
insertion order preserved), websocket connections as natural-number ids,
and JSON leaf values as the inductive `JVal`.  Delivery failure of a
connection is modelled by membership in a `dead : List Nat` parameter;
a successful `send_json` is recorded as an `Out` event.
-/

/-- JSON leaf values as they appear in inbound payloads and stored
positions.  Numbers are embedded as rationals (the server only stores
and echoes them, never computes with them). -/
inductive JVal where
  | jnull : JVal
  | jbool : Bool → JVal
  | jnum : Rat → JVal
  | jstr : String → JVal
deriving DecidableEq

/-- A stored 3-D position `{"x": ..., "y": ..., "z": ...}`. -/
structure Pos3 where
  x : JVal
  y : JVal
  z : JVal
deriving DecidableEq

/-- The origin position `{"x": 0.0, "y": 0.0, "z": 0.0}`. -/
def origin : Pos3 := ⟨JVal.jnum 0, JVal.jnum 0, JVal.jnum 0⟩

/-- One entry of a lobby's `items` dict. -/
structure Item where
  collected : Bool
  position : Pos3
  is_bonus : Bool
  bonus_type : String
deriving DecidableEq

/-- A lobby record, with exactly the fields the Python dict carries. -/
structure Lobby where
  lobby_id : String
  creator : String
  players : List String
  status : String
  max_players : Nat
  scores : List (String × Int)
  seed : Int
  positions : List (String × Pos3)
  items : List (String × Item)
  ready_players : List String
  messages : List (String × String)
  bonus_durations : List (String × Rat)
  bonus_multipliers : List (String × Rat)
deriving DecidableEq

/-- Python-dict lookup `m.get(key)` / `m[key]` on an association list:
the first binding of the key wins. -/
def getA {α : Type} : List (String × α) → String → Option α
  | [], _ => none
  | (k, v) :: rest, key => if k = key then some v else getA rest key

/-- Python-dict assignment `m[key] = v`: replaces the first binding of
the key in place, appends a fresh binding otherwise. -/
def setA {α : Type} : List (String × α) → String → α → List (String × α)
  | [], key, v => [(key, v)]
  | (k, w) :: rest, key, v =>
    if k = key then (key, v) :: rest else (k, w) :: setA rest key v

/-- Python-dict deletion `del m[key]`. -/
def eraseA {α : Type} (m : List (String × α)) (key : String) :
    List (String × α) :=
  m.filter (fun p => p.1 != key)

/-- The key set of an association list. -/
def keysA {α : Type} (m : List (String × α)) : List String :=
  m.map Prod.fst

/-- `is_valid_username`: the handle starts with "@" (the Python
`startswith("@")`, i.e. its first character is '@') and is longer than
one character. -/
def is_valid_username (username : String) : Bool :=
  username.data.head? == some '@' && username.length > 1

/-- The default `bonus_durations` dict of a fresh lobby. -/
def defaultDurations : List (String × Rat) :=
  [("disable_control_others", 5), ("slow_others", 5), ("speed_up_others", 5)]

/-- The default `bonus_multipliers` dict of a fresh lobby. -/
def defaultMultipliers : List (String × Rat) :=
  [("slow_multiplier", 1/2), ("speed_up_multiplier", 2)]

/-- The lobby dict literal built by the `create` paths. -/
def newLobby (lobby_id username : String) : Lobby :=
  { lobby_id := lobby_id
    creator := username
    players := [username]
    status := "waiting"
    max_players := 4
    scores := [(username, 0)]
    seed := 0
    positions := [(username, origin)]
    items := []
    ready_players := []
    messages := []
    bonus_durations := defaultDurations
    bonus_multipliers := defaultMultipliers }

/-- The whole server state: the `lobbies` registry (keyed by creator)
and the `clients` connection sets (keyed by lobby id). -/
structure ServerState where
  lobbies : List (String × Lobby)
  clients : List (String × List Nat)
deriving DecidableEq

/-- Payloads sent to a single websocket with `websocket.send_json`. -/
inductive SMsg where
  | err : String → SMsg
  | info : String → SMsg
  | createReply : String → String → List String → String →
      List (String × String) → SMsg
  | joinReply : String → String → List String → String →
      List (String × String) → SMsg
  | lobbiesList : List (String × String × Nat × Nat) → SMsg
  | pong : SMsg
deriving DecidableEq

/-- Payloads fanned out through `notify_clients`. -/
inductive BMsg where
  | roster : String → List String → String → BMsg
  | startGame : String → List String → Int → List (String × Item) → BMsg
  | allReady : String → BMsg
  | positionDelta : String → String → JVal → JVal → JVal → BMsg
  | itemCollected : String → String → String → List (String × Int) → BMsg
  | bonusCollected : String → String → String → String → BMsg
  | applyEffect : String → String → Rat → Option Rat → BMsg
  | itemsRegistered : String → Nat → BMsg
  | chatMsg : String → String → String → BMsg
deriving DecidableEq

/-- Observable network effects: a direct reply to a connection or a
successful fan-out delivery to a connection. -/
inductive Out where
  | send : Nat → SMsg → Out
  | deliver : Nat → BMsg → Out
deriving DecidableEq

/-- The send loop inside `notify_clients`: iterate over a snapshot of
the connection list; a failing send (connection in `dead`) removes the
connection from the list instead of producing a delivery. -/
def notifyLoop (dead : List Nat) (m : BMsg) : List Nat → List Nat × List Out
  | [] => ([], [])
  | c :: rest =>
    if dead.contains c then notifyLoop dead m rest
    else
      let r := notifyLoop dead m rest
      (c :: r.1, Out.deliver c m :: r.2)

/-- `notify_clients(lobby_id, message)`: no-op when the lobby id has no
connection set, otherwise runs the pruning send loop over the set. -/
def notify_clients (dead : List Nat) (cl : List (String × List Nat))
    (lid : String) (m : BMsg) : List (String × List Nat) × List Out :=
  match getA cl lid with
  | none => (cl, [])
  | some conns =>
    let r := notifyLoop dead m conns
    (setA cl lid r.1, r.2)

/-- The linear scan `for c, l in lobbies.items(): if l["lobby_id"] ==
lobby_id: break` used by the id-addressed actions. -/
def findByLobbyId : List (String × Lobby) → String → Option (String × Lobby)
  | [], _ => none
  | (c, l) :: rest, lid =>
    if l.lobby_id = lid then some (c, l) else findByLobbyId rest lid

/-- Writing back an in-place mutation of the lobby found by
`findByLobbyId`: replaces the first entry with the given lobby id. -/
def setByLobbyId : List (String × Lobby) → String → Lobby → List (String × Lobby)
  | [], _, _ => []
  | (c, l) :: rest, lid, l' =>
    if l.lobby_id = lid then (c, l') :: rest
    else (c, l) :: setByLobbyId rest lid l'

/-- The `create` branch of the websocket dispatcher.  `freshId` stands
for the `uuid.uuid4()` the server allocates. -/
def handleCreate (freshId : String) (ws : Nat) (s : ServerState)
    (username : String) : ServerState × List Out :=
  if !is_valid_username username then
    (s, [Out.send ws (SMsg.err "Invalid username")])
  else if (getA s.lobbies username).isSome then
    (s, [Out.send ws (SMsg.err "A lobby with this name already exists.")])
  else
    ({ lobbies := setA s.lobbies username (newLobby freshId username)
       clients := setA s.clients freshId [ws] },
     [Out.send ws (SMsg.createReply freshId username [username] "waiting" [])])

/-- The `join` branch of the websocket dispatcher. -/
def handleJoin (dead : List Nat) (ws : Nat) (s : ServerState)
    (creator username : String) : ServerState × List Out :=
  if !(is_valid_username creator && is_valid_username username) then
    (s, [Out.send ws (SMsg.err "Invalid username")])
  else
    match getA s.lobbies creator with
    | none => (s, [Out.send ws (SMsg.err "Lobby not found")])
    | some lobby =>
      if lobby.players.length ≥ lobby.max_players then
        (s, [Out.send ws (SMsg.err "The lobby is full")])
      else if username ∈ lobby.players then
        (s, [Out.send ws (SMsg.err "You are already in the lobby")])
      else if lobby.status = "started" then
        (s, [Out.send ws (SMsg.err "Game already started, cannot join")])
      else
        let lobby' := { lobby with
          players := lobby.players ++ [username]
          scores := setA lobby.scores username 0
          positions := setA lobby.positions username origin }
        let cl1 := setA s.clients lobby.lobby_id
          (((getA s.clients lobby.lobby_id).getD []) ++ [ws])
        let r := notify_clients dead cl1 lobby.lobby_id
          (BMsg.roster lobby.lobby_id lobby'.players "waiting")
        ({ lobbies := setA s.lobbies creator lobby', clients := r.1 },
         r.2 ++ [Out.send ws
           (SMsg.joinReply lobby.lobby_id creator lobby'.players "waiting"
             lobby.messages)])

/-- The `start` branch of the websocket dispatcher. -/
def handleStart (dead : List Nat) (ws : Nat) (s : ServerState)
    (username lobby_id : String) (seed : Int) : ServerState × List Out :=
  match findByLobbyId s.lobbies lobby_id with
  | none => (s, [Out.send ws (SMsg.err "Lobby not found")])
  | some (_, lobby) =>
    if username ≠ lobby.creator then
      (s, [Out.send ws (SMsg.err "Only the creator can start the game")])
    else
      let lobby' := { lobby with status := "started", seed := seed }
      let r := notify_clients dead s.clients lobby_id
        (BMsg.startGame lobby_id lobby'.players seed lobby'.items)
      ({ lobbies := setByLobbyId s.lobbies lobby_id lobby', clients := r.1 },
       r.2)

/-- Python truthiness of an optional dict payload field: `None` and the
empty dict are falsy. -/
def truthyMap (o : Option (List (String × Rat))) : Bool :=
  match o with
  | none => false
  | some l => !l.isEmpty

/-- The `set_bonus_data` branch of the websocket dispatcher: a truthy
`bonus_durations` / `bonus_multipliers` payload replaces the whole
corresponding lobby dict. -/
def handleSetBonusData (ws : Nat) (s : ServerState) (username lobby_id : String)
    (bd bm : Option (List (String × Rat))) : ServerState × List Out :=
  match findByLobbyId s.lobbies lobby_id with
  | none => (s, [Out.send ws (SMsg.err "Lobby not found")])
  | some (_, lobby) =>
    if username ∉ lobby.players then
      (s, [Out.send ws (SMsg.err "Player not in lobby")])
    else
      let lobby' := { lobby with
        bonus_durations :=
          if truthyMap bd then bd.getD [] else lobby.bonus_durations
        bonus_multipliers :=
          if truthyMap bm then bm.getD [] else lobby.bonus_multipliers }
      ({ lobbies := setByLobbyId s.lobbies lobby_id lobby'
         clients := s.clients },
       [Out.send ws (SMsg.info "Bonus data updated")])

/-- The `leave` branch of the websocket dispatcher. -/
def handleLeave (dead : List Nat) (ws : Nat) (s : ServerState)
    (lobby_id username : String) : ServerState × List Out :=
  match findByLobbyId s.lobbies lobby_id with
  | none => (s, [Out.send ws (SMsg.err "Lobby not found")])
  | some (creator, lobby) =>
    if username = lobby.creator then
      let notif :=
        match getA s.clients lobby_id with
        | some conns =>
          (conns.filter (fun c => c != ws && !dead.contains c)).map
            (fun c => Out.send c (SMsg.err "Lobby closed by creator"))
        | none => []
      let cl' :=
        match getA s.clients lobby_id with
        | some _ => eraseA s.clients lobby_id
        | none => s.clients
      ({ lobbies := eraseA s.lobbies creator, clients := cl' },
       notif ++ [Out.send ws (SMsg.info "Lobby closed")])
    else
      if username ∈ lobby.players then
        let lobby' := { lobby with
          players := lobby.players.erase username
          scores := eraseA lobby.scores username
          positions := eraseA lobby.positions username
          ready_players :=
            if username ∈ lobby.ready_players then
              lobby.ready_players.erase username
            else lobby.ready_players }
        let cl1 :=
          match getA s.clients lobby_id with
          | some conns =>
            if ws ∈ conns then setA s.clients lobby_id (conns.erase ws)
            else s.clients
          | none => s.clients
        let r := notify_clients dead cl1 lobby_id
          (BMsg.roster lobby_id lobby'.players lobby'.status)
        ({ lobbies := setByLobbyId s.lobbies lobby_id lobby', clients := r.1 },
         r.2 ++ [Out.send ws (SMsg.info "Left lobby")])
      else (s, [])

/-- The `ready` branch of the websocket dispatcher. -/
def handleReady (dead : List Nat) (ws : Nat) (s : ServerState)
    (username lobby_id : String) : ServerState × List Out :=
  match findByLobbyId s.lobbies lobby_id with
  | none => (s, [Out.send ws (SMsg.err "Lobby not found")])
  | some (_, lobby) =>
    if username ∉ lobby.players then
      (s, [Out.send ws (SMsg.err "Player not in lobby")])
    else if username ∈ lobby.ready_players then (s, [])
    else
      let lobby' :=
        { lobby with ready_players := lobby.ready_players ++ [username] }
      let lobbies' := setByLobbyId s.lobbies lobby_id lobby'
      if lobby'.ready_players.length = lobby'.players.length then
        let r := notify_clients dead s.clients lobby_id (BMsg.allReady lobby_id)
        ({ lobbies := lobbies', clients := r.1 }, r.2)
      else ({ lobbies := lobbies', clients := s.clients }, [])

/-- The `update_position` branch of the websocket dispatcher: the
coordinates are stored exactly as received (defaults were applied at
`message.get`), with no type validation. -/
def handleUpdatePosition (dead : List Nat) (ws : Nat) (s : ServerState)
    (lobby_id username : String) (x y z : JVal) : ServerState × List Out :=
  match findByLobbyId s.lobbies lobby_id with
  | none => (s, [Out.send ws (SMsg.err "Lobby not found")])
  | some (_, lobby) =>
    if username ∉ lobby.players then
      (s, [Out.send ws (SMsg.err "Player not in lobby")])
    else
      let lobby' :=
        { lobby with positions := setA lobby.positions username ⟨x, y, z⟩ }
      let r := notify_clients dead s.clients lobby_id
        (BMsg.positionDelta lobby_id username x y z)
      ({ lobbies := setByLobbyId s.lobbies lobby_id lobby', clients := r.1 },
       r.2)

/-- The `collect_item` branch of the websocket dispatcher. -/
def handleCollectItem (dead : List Nat) (ws : Nat) (s : ServerState)
    (lobby_id username item_id : String) : ServerState × List Out :=
  match findByLobbyId s.lobbies lobby_id with
  | none => (s, [Out.send ws (SMsg.err "Lobby not found")])
  | some (_, lobby) =>
    if username ∉ lobby.players then
      (s, [Out.send ws (SMsg.err "Player not in lobby")])
    else
      match getA lobby.items item_id with
      | none => (s, [Out.send ws (SMsg.err "Item not found")])
      | some it =>
        if it.collected then
          (s, [Out.send ws (SMsg.err "Item already collected")])
        else
          let lobby' := { lobby with
            items := setA lobby.items item_id { it with collected := true }
            scores := setA lobby.scores username
              ((getA lobby.scores username).getD 0 + 1) }
          let r := notify_clients dead s.clients lobby_id
            (BMsg.itemCollected lobby_id item_id username lobby'.scores)
          ({ lobbies := setByLobbyId s.lobbies lobby_id lobby'
             clients := r.1 },
           r.2)

/-- The per-other-player effect fan-out loop inside `collect_bonus`. -/
def effectLoop (dead : List Nat) (lid username eff : String) (dur : Rat)
    (mult : Option Rat) :
    List String → List (String × List Nat) → List (String × List Nat) × List Out
  | [], cl => (cl, [])
  | p :: rest, cl =>
    if p = username then effectLoop dead lid username eff dur mult rest cl
    else
      let r1 := notify_clients dead cl lid (BMsg.applyEffect eff p dur mult)
      let r2 := effectLoop dead lid username eff dur mult rest r1.1
      (r2.1, r1.2 ++ r2.2)

/-- The `collect_bonus` branch of the websocket dispatcher. -/
def handleCollectBonus (dead : List Nat) (ws : Nat) (s : ServerState)
    (lobby_id username item_id bonus_type : String) : ServerState × List Out :=
  match findByLobbyId s.lobbies lobby_id with
  | none => (s, [Out.send ws (SMsg.err "Lobby not found")])
  | some (_, lobby) =>
    if username ∉ lobby.players then
      (s, [Out.send ws (SMsg.err "Player not in lobby")])
    else
      match getA lobby.items item_id with
      | none => (s, [Out.send ws (SMsg.err "Item not found")])
      | some it =>
        if !it.is_bonus then
          (s, [Out.send ws (SMsg.err "Item is not a bonus item")])
        else if it.collected then
          (s, [Out.send ws (SMsg.err "Bonus item already collected")])
        else
          let lobby' := { lobby with
            items := setA lobby.items item_id { it with collected := true } }
          let r1 := notify_clients dead s.clients lobby_id
            (BMsg.bonusCollected lobby_id item_id username bonus_type)
          let bd := lobby'.bonus_durations
          let bm := lobby'.bonus_multipliers
          let r2 :=
            if bonus_type = "disable_control_others" then
              effectLoop dead lobby_id username "disable_control"
                ((getA bd "disable_control_others").getD 5) none
                lobby'.players r1.1
            else if bonus_type = "slow_others" then
              effectLoop dead lobby_id username "slow_others"
                ((getA bd "slow_others").getD 5)
                (some ((getA bm "slow_multiplier").getD (1/2)))
                lobby'.players r1.1
            else if bonus_type = "speed_up_others" then
              effectLoop dead lobby_id username "speed_up_others"
                ((getA bd "speed_up_others").getD 5)
                (some ((getA bm "speed_up_multiplier").getD 2))
                lobby'.players r1.1
            else (r1.1, [])
          ({ lobbies := setByLobbyId s.lobbies lobby_id lobby'
             clients := r2.1 },
           r1.2 ++ r2.2)

/-- One element of the `register_items` payload list, with the
`item.get` defaults already applied (a missing or falsy `item_id` is
modelled as the empty string). -/
structure RegItem where
  item_id : String
  position : Pos3
  is_bonus : Bool
  bonus_type : String
deriving DecidableEq

/-- The item-dict rebuilding loop of `register_items`. -/
def buildItems : List RegItem → List (String × Item) → List (String × Item)
  | [], acc => acc
  | it :: rest, acc =>
    if it.item_id ≠ "" then
      buildItems rest (setA acc it.item_id
        { collected := false, position := it.position
          is_bonus := it.is_bonus, bonus_type := it.bonus_type })
    else buildItems rest acc

/-- The `register_items` branch of the websocket dispatcher. -/
def handleRegisterItems (dead : List Nat) (ws : Nat) (s : ServerState)
    (lobby_id : String) (items : List RegItem) : ServerState × List Out :=
  match findByLobbyId s.lobbies lobby_id with
  | none => (s, [Out.send ws (SMsg.err "Lobby not found")])
  | some (_, lobby) =>
    let lobby' := { lobby with items := buildItems items [] }
    let r := notify_clients dead s.clients lobby_id
      (BMsg.itemsRegistered lobby_id lobby'.items.length)
    ({ lobbies := setByLobbyId s.lobbies lobby_id lobby', clients := r.1 },
     r.2)

/-- The `send_message` branch of the websocket dispatcher. -/
def handleSendMessage (dead : List Nat) (ws : Nat) (s : ServerState)
    (lobby_id username chat : String) : ServerState × List Out :=
  match findByLobbyId s.lobbies lobby_id with
  | none => (s, [Out.send ws (SMsg.err "Lobby not found")])
  | some (_, lobby) =>
    if username ∉ lobby.players then
      (s, [Out.send ws (SMsg.err "Player not in lobby")])
    else if chat.trim = "" then
      (s, [Out.send ws (SMsg.err "Message cannot be empty")])
    else
      let lobby' :=
        { lobby with messages := lobby.messages ++ [(username, chat)] }
      let r := notify_clients dead s.clients lobby_id
        (BMsg.chatMsg lobby_id username chat)
      ({ lobbies := setByLobbyId s.lobbies lobby_id lobby', clients := r.1 },
       r.2)

/-- The `get_lobbies` branch of the websocket dispatcher. -/
def handleGetLobbies (ws : Nat) (s : ServerState) : ServerState × List Out :=
  (s, [Out.send ws (SMsg.lobbiesList
    ((s.lobbies.filter (fun p => p.2.status == "waiting")).map
      (fun p => (p.2.lobby_id, p.1, p.2.players.length, p.2.max_players))))])

/-- The `ping` branch of the websocket dispatcher. -/
def handlePing (ws : Nat) (s : ServerState) : ServerState × List Out :=
  (s, [Out.send ws SMsg.pong])

/-- One parsed inbound websocket message.  Fields mirror the
`message.get(...)` reads of the dispatcher, with the source's defaults
(`seed` 0, coordinates 0.0, `items` the empty list) already applied. -/
structure InMsg where
  action : String
  username : String
  creator : String
  lobby_id : String
  seed : Int
  x : JVal
  y : JVal
  z : JVal
  item_id : String
  bonus_type : String
  bonus_durations : Option (List (String × Rat))
  bonus_multipliers : Option (List (String × Rat))
  items : List RegItem
  chat : String
deriving DecidableEq

/-- The action dispatch of `websocket_endpoint`: the if/elif chain over
the `action` tag, in source order.  A tag matching no branch falls
through with no effect and no reply. -/
def wsStep (dead : List Nat) (freshId : String) (ws : Nat) (s : ServerState)
    (msg : InMsg) : ServerState × List Out :=
  if msg.action = "create" then handleCreate freshId ws s msg.username
  else if msg.action = "join" then handleJoin dead ws s msg.creator msg.username
  else if msg.action = "start" then
    handleStart dead ws s msg.username msg.lobby_id msg.seed
  else if msg.action = "set_bonus_data" then
    handleSetBonusData ws s msg.username msg.lobby_id msg.bonus_durations
      msg.bonus_multipliers
  else if msg.action = "leave" then handleLeave dead ws s msg.lobby_id msg.username
  else if msg.action = "ready" then handleReady dead ws s msg.username msg.lobby_id
  else if msg.action = "update_position" then
    handleUpdatePosition dead ws s msg.lobby_id msg.username msg.x msg.y msg.z
  else if msg.action = "collect_item" then
    handleCollectItem dead ws s msg.lobby_id msg.username msg.item_id
  else if msg.action = "collect_bonus" then
    handleCollectBonus dead ws s msg.lobby_id msg.username msg.item_id
      msg.bonus_type
  else if msg.action = "register_items" then
    handleRegisterItems dead ws s msg.lobby_id msg.items
  else if msg.action = "send_message" then
    handleSendMessage dead ws s msg.lobby_id msg.username msg.chat
  else if msg.action = "get_lobbies" then handleGetLobbies ws s
  else if msg.action = "ping" then handlePing ws s
  else (s, [])

/-- Responses of the HTTP request/response endpoints. -/
inductive HttpResp where
  | rerr : String → HttpResp
  | createOk : String → String → List String → String →
      List (String × String) → HttpResp
  | joinOk : String → String → List String → String →
      List (String × String) → HttpResp
  | startOk : String → HttpResp
deriving DecidableEq

/-- The HTTP endpoint `POST /create_lobby`.  Unlike the websocket
`create` branch it registers an empty connection set. -/
def create_lobby (freshId : String) (s : ServerState) (username : String) :
    ServerState × HttpResp :=
  if !is_valid_username username then (s, HttpResp.rerr "Invalid username")
  else if (getA s.lobbies username).isSome then
    (s, HttpResp.rerr "A lobby with this name already exists.")
  else
    ({ lobbies := setA s.lobbies username (newLobby freshId username)
       clients := setA s.clients freshId [] },
     HttpResp.createOk freshId username [username] "waiting" [])

/-- The HTTP endpoint `POST /join_lobby`.  Its check chain is: valid
handles, lobby exists, not full, not already a member — it has no
started-status check. -/
def join_lobby (dead : List Nat) (s : ServerState) (creator username : String) :
    ServerState × HttpResp × List Out :=
  if !(is_valid_username creator && is_valid_username username) then
    (s, HttpResp.rerr "Invalid username", [])
  else
    match getA s.lobbies creator with
    | none => (s, HttpResp.rerr "Lobby not found", [])
    | some lobby =>
      if lobby.players.length ≥ lobby.max_players then
        (s, HttpResp.rerr "The lobby is full", [])
      else if username ∈ lobby.players then
        (s, HttpResp.rerr "You are already in the lobby", [])
      else
        let lobby' := { lobby with
          players := lobby.players ++ [username]
          scores := setA lobby.scores username 0
          positions := setA lobby.positions username origin }
        let r := notify_clients dead s.clients lobby.lobby_id
          (BMsg.roster lobby.lobby_id lobby'.players lobby'.status)
        ({ lobbies := setA s.lobbies creator lobby', clients := r.1 },
         HttpResp.joinOk lobby.lobby_id creator lobby'.players lobby'.status
           lobby'.messages,
         r.2)

/-- The HTTP endpoint `POST /start_game` (which, unlike the websocket
`start` branch, may also overwrite `bonus_durations`). -/
def start_game (dead : List Nat) (s : ServerState) (lobby_id username : String)
    (seed : Int) (bd : Option (List (String × Rat))) :
    ServerState × HttpResp × List Out :=
  match findByLobbyId s.lobbies lobby_id with
  | none => (s, HttpResp.rerr "Lobby not found", [])
  | some (_, lobby) =>
    if username ≠ lobby.creator then
      (s, HttpResp.rerr "Only the creator can start the game", [])
    else
      let lobby1 :=
        if truthyMap bd then { lobby with bonus_durations := bd.getD [] }
        else lobby
      let lobby' := { lobby1 with status := "started", seed := seed }
      let r := notify_clients dead s.clients lobby_id
        (BMsg.startGame lobby_id lobby'.players seed lobby'.items)
      ({ lobbies := setByLobbyId s.lobbies lobby_id lobby', clients := r.1 },
       HttpResp.startOk "Game has started", r.2)

/-- The member-eviction loop of `handle_disconnect`: for every handle
in a snapshot of the lobby's player list that is not the creator,
remove it from players, scores, positions and the ready list, and
re-broadcast the roster after each removal. -/
def pruneLoop (dead : List Nat) (lid : String) :
    List String → Lobby → List (String × List Nat) → List Out →
    Lobby × List (String × List Nat) × List Out
  | [], lobby, cl, outs => (lobby, cl, outs)
  | u :: rest, lobby, cl, outs =>
    if u ≠ lobby.creator then
      let lobby' := { lobby with
        players := lobby.players.erase u
        scores := eraseA lobby.scores u
        positions := eraseA lobby.positions u
        ready_players :=
          if u ∈ lobby.ready_players then lobby.ready_players.erase u
          else lobby.ready_players }
      let r := notify_clients dead cl lid
        (BMsg.roster lid lobby'.players lobby'.status)
      pruneLoop dead lid rest lobby' r.1 (outs ++ r.2)
    else pruneLoop dead lid rest lobby cl outs

/-- The inner registry loop of `handle_disconnect`: every registry
entry whose lobby id matches the orphaned connection set is deleted
when that set is now empty, and has its non-creator members evicted
otherwise. -/
def discLobbyLoop (dead : List Nat) (lid : String) :
    List (String × Lobby) → List (String × List Nat) → List Out →
    List (String × Lobby) × List (String × List Nat) × List Out
  | [], cl, outs => ([], cl, outs)
  | (c, l) :: rest, cl, outs =>
    if l.lobby_id = lid then
      if ((getA cl lid).getD []).isEmpty then
        discLobbyLoop dead lid rest cl outs
      else
        let r := pruneLoop dead lid l.players l cl outs
        let r2 := discLobbyLoop dead lid rest r.2.1 r.2.2
        ((c, r.1) :: r2.1, r2.2)
    else
      let r := discLobbyLoop dead lid rest cl outs
      ((c, l) :: r.1, r.2)

/-- The scan over `clients.items()` at the top of `handle_disconnect`:
the first connection set containing the dead websocket (the loop
breaks after one hit). -/
def findWsEntry : List (String × List Nat) → Nat → Option (String × List Nat)
  | [], _ => none
  | (lid, conns) :: rest, ws =>
    if ws ∈ conns then some (lid, conns) else findWsEntry rest ws

/-- `handle_disconnect(websocket)`: detach the websocket from the first
connection set containing it, then reconcile every registry entry with
that lobby id.  Note that the `clients` entry itself is never deleted
here (only `lobbies[creator]` is). -/
def handle_disconnect (dead : List Nat) (ws : Nat) (s : ServerState) :
    ServerState × List Out :=
  match findWsEntry s.clients ws with
  | none => (s, [])
  | some (lid, conns) =>
    let cl1 := setA s.clients lid (conns.erase ws)
    let r := discLobbyLoop dead lid s.lobbies cl1 []
    ({ lobbies := r.1, clients := r.2.1 }, r.2.2)

/-- One step of the whole server: a dispatched websocket message, a
websocket disconnect, or one of the three HTTP endpoints. -/
inductive SysStep : ServerState → ServerState → Prop where
  | wsAct (dead : List Nat) (freshId : String) (ws : Nat) (msg : InMsg)
      (s : ServerState) : SysStep s (wsStep dead freshId ws s msg).1
  | disc (dead : List Nat) (ws : Nat) (s : ServerState) :
      SysStep s (handle_disconnect dead ws s).1
  | httpCreate (freshId username : String) (s : ServerState) :
      SysStep s (create_lobby freshId s username).1
  | httpJoin (dead : List Nat) (creator username : String) (s : ServerState) :
      SysStep s (join_lobby dead s creator username).1
  | httpStart (dead : List Nat) (lobby_id username : String) (seed : Int)
      (bd : Option (List (String × Rat))) (s : ServerState) :
      SysStep s (start_game dead s lobby_id username seed bd).1

theorem getA_mem {α : Type} {m : List (String × α)} {k : String} {v : α}
    (h : getA m k = some v) : (k, v) ∈ m := by
  induction m with
  | nil => simp [getA] at h
  | cons p rest ih =>
    obtain ⟨k', v'⟩ := p
    simp only [getA] at h
    split at h
    · rename_i hk
      injection h with h
      subst hk; subst h
      exact List.mem_cons_self _ _
    · exact List.mem_cons_of_mem _ (ih h)

theorem mem_setA {α : Type} {m : List (String × α)} {k : String} {v : α}
    {p : String × α} (h : p ∈ setA m k v) : p ∈ m ∨ p = (k, v) := by
  induction m with
  | nil => simp [setA] at h; right; exact h
  | cons q rest ih =>
    obtain ⟨k', v'⟩ := q
    simp only [setA] at h
    split at h
    · rcases List.mem_cons.mp h with h1 | h1
      · right; exact h1
      · left; exact List.mem_cons_of_mem _ h1
    · rcases List.mem_cons.mp h with h1 | h1
      · left; subst h1; exact List.mem_cons_self _ _
      · rcases ih h1 with h2 | h2
        · left; exact List.mem_cons_of_mem _ h2
        · right; exact h2

theorem getA_setA_self {α : Type} (m : List (String × α)) (k : String) (v : α) :
    getA (setA m k v) k = some v := by
  induction m with
  | nil => simp [setA, getA]
  | cons q rest ih =>
    obtain ⟨k', v'⟩ := q
    simp only [setA]
    split
    · simp [getA]
    · rename_i hk
      simp only [getA, if_neg hk]
      exact ih

theorem getA_setA_ne {α : Type} (m : List (String × α)) (k k' : String) (v : α)
    (h : k' ≠ k) : getA (setA m k v) k' = getA m k' := by
  induction m with
  | nil => simp only [setA, getA, if_neg (Ne.symm h)]
  | cons q rest ih =>
    obtain ⟨k'', v'⟩ := q
    simp only [setA]
    split
    · rename_i hk
      subst hk
      simp only [getA, if_neg (Ne.symm h)]
    · simp only [getA]
      split
      · rfl
      · exact ih

theorem setA_getA_self {α : Type} {m : List (String × α)} {k : String} {v : α}
    (h : getA m k = some v) : setA m k v = m := by
  induction m with
  | nil => simp [getA] at h
  | cons q rest ih =>
    obtain ⟨k', v'⟩ := q
    simp only [getA] at h
    simp only [setA]
    split
    · rename_i hk
      rw [if_pos hk] at h
      injection h with h
      subst hk; subst h; rfl
    · rename_i hk
      rw [if_neg hk] at h
      rw [ih h]

theorem mem_eraseA {α : Type} {m : List (String × α)} {k : String}
    {p : String × α} (h : p ∈ eraseA m k) : p ∈ m ∧ p.1 ≠ k := by
  unfold eraseA at h
  have h2 := List.mem_filter.mp h
  refine ⟨h2.1, ?_⟩
  simpa [bne_iff_ne] using h2.2

theorem eraseA_cons {α : Type} (k' : String) (v' : α)
    (rest : List (String × α)) (k : String) :
    eraseA ((k', v') :: rest) k =
      if k' = k then eraseA rest k else (k', v') :: eraseA rest k := by
  simp only [eraseA, List.filter_cons]
  by_cases hk : k' = k
  · subst hk; simp
  · simp [hk]

theorem getA_eraseA_self {α : Type} (m : List (String × α)) (k : String) :
    getA (eraseA m k) k = none := by
  induction m with
  | nil => rfl
  | cons q rest ih =>
    obtain ⟨k', v'⟩ := q
    rw [eraseA_cons]
    by_cases hk : k' = k
    · rw [if_pos hk]; exact ih
    · rw [if_neg hk]
      simp only [getA, if_neg hk]
      exact ih

theorem getA_eraseA_ne {α : Type} (m : List (String × α)) (k k' : String)
    (h : k' ≠ k) : getA (eraseA m k) k' = getA m k' := by
  induction m with
  | nil => rfl
  | cons q rest ih =>
    obtain ⟨k'', v'⟩ := q
    rw [eraseA_cons]
    by_cases hk : k'' = k
    · rw [if_pos hk]
      rw [ih]
      have h2 : ¬k'' = k' := by rw [hk]; exact Ne.symm h
      simp only [getA, if_neg h2]
    · rw [if_neg hk]
      simp only [getA]
      split
      · rfl
      · exact ih

theorem findByLobbyId_mem {m : List (String × Lobby)} {lid : String}
    {c : String} {l : Lobby} (h : findByLobbyId m lid = some (c, l)) :
    (c, l) ∈ m ∧ l.lobby_id = lid := by
  induction m with
  | nil => simp [findByLobbyId] at h
  | cons q rest ih =>
    obtain ⟨c', l'⟩ := q
    simp only [findByLobbyId] at h
    split at h
    · rename_i hl
      injection h with h
      injection h with h1 h2
      subst h1; subst h2
      exact ⟨List.mem_cons_self _ _, hl⟩
    · obtain ⟨h1, h2⟩ := ih h
      exact ⟨List.mem_cons_of_mem _ h1, h2⟩

theorem mem_setByLobbyId {m : List (String × Lobby)} {lid : String}
    {l' : Lobby} {p : String × Lobby} (h : p ∈ setByLobbyId m lid l') :
    p ∈ m ∨ ∃ l₀, findByLobbyId m lid = some (p.1, l₀) ∧ p.2 = l' := by
  induction m with
  | nil => simp [setByLobbyId] at h
  | cons q rest ih =>
    obtain ⟨c, l⟩ := q
    simp only [setByLobbyId] at h
    split at h
    · rename_i hl
      rcases List.mem_cons.mp h with h1 | h1
      · right
        refine ⟨l, ?_, ?_⟩
        · simp [findByLobbyId, hl, h1]
        · rw [h1]
      · left; exact List.mem_cons_of_mem _ h1
    · rename_i hl
      rcases List.mem_cons.mp h with h1 | h1
      · left; subst h1; exact List.mem_cons_self _ _
      · rcases ih h1 with h2 | h2
        · left; exact List.mem_cons_of_mem _ h2
        · right
          obtain ⟨l₀, h3, h4⟩ := h2
          exact ⟨l₀, by simp [findByLobbyId, hl, h3], h4⟩

theorem getA_setByLobbyId {m : List (String × Lobby)} {lid : String}
    {l' : Lobby} (c : String) :
    getA (setByLobbyId m lid l') c = getA m c ∨
      ∃ l₀, findByLobbyId m lid = some (c, l₀) ∧ getA m c = some l₀ ∧
        getA (setByLobbyId m lid l') c = some l' := by
  induction m with
  | nil => left; simp [setByLobbyId]
  | cons q rest ih =>
    obtain ⟨c', l⟩ := q
    simp only [setByLobbyId]
    split
    · rename_i hl
      by_cases hc : c' = c
      · subst hc
        right
        exact ⟨l, by simp [findByLobbyId, hl], by simp [getA], by simp [getA]⟩
      · left
        simp [getA, if_neg hc]
    · rename_i hl
      by_cases hc : c' = c
      · subst hc
        left
        simp [getA]
      · simp only [getA, if_neg hc]
        rcases ih with h1 | ⟨l₀, h2, h3, h4⟩
        · left; exact h1
        · right
          exact ⟨l₀, by simp [findByLobbyId, hl, h2], h3, h4⟩

theorem keysA_setA {α : Type} {m : List (String × α)} {key : String} {v : α}
    {k : String} (h : k ∈ keysA (setA m key v)) : k ∈ keysA m ∨ k = key := by
  unfold keysA at h ⊢
  obtain ⟨p, hp, hk⟩ := List.mem_map.mp h
  rcases mem_setA hp with h1 | h1
  · left; exact List.mem_map.mpr ⟨p, h1, hk⟩
  · right; rw [← hk, h1]

theorem keysA_eraseA {α : Type} {m : List (String × α)} {key : String}
    {k : String} (h : k ∈ keysA (eraseA m key)) : k ∈ keysA m ∧ k ≠ key := by
  unfold keysA at h ⊢
  obtain ⟨p, hp, hk⟩ := List.mem_map.mp h
  obtain ⟨h1, h2⟩ := mem_eraseA hp
  exact ⟨List.mem_map.mpr ⟨p, h1, hk⟩, hk ▸ h2⟩

theorem notifyLoop_eq (dead : List Nat) (m : BMsg) (conns : List Nat) :
    notifyLoop dead m conns =
      (conns.filter (fun c => !dead.contains c),
       (conns.filter (fun c => !dead.contains c)).map
         (fun c => Out.deliver c m)) := by
  induction conns with
  | nil => rfl
  | cons c rest ih =>
    simp only [notifyLoop, List.filter_cons, ih]
    by_cases hc : dead.contains c = true
    · rw [if_pos hc, hc]
      simp
    · rw [if_neg hc]
      rw [Bool.not_eq_true] at hc
      rw [hc]
      simp

theorem notifyLoop_noDead (m : BMsg) (conns : List Nat) :
    notifyLoop [] m conns = (conns, conns.map (fun c => Out.deliver c m)) := by
  rw [notifyLoop_eq]
  simp [List.contains]

theorem notify_clients_noDead {cl : List (String × List Nat)} {lid : String}
    {conns : List Nat} (h : getA cl lid = some conns) (m : BMsg) :
    notify_clients [] cl lid m = (cl, conns.map (fun c => Out.deliver c m)) := by
  unfold notify_clients
  rw [h]
  simp only [notifyLoop_noDead]
  rw [setA_getA_self h]

/-- The lobby invariants of the spec: the creator is a member, the key
sets of `scores` and `positions` are contained in the member list, and
the member count is within the capacity of 4. -/
def LobbyInv (l : Lobby) : Prop :=
  l.creator ∈ l.players ∧
  (∀ k ∈ keysA l.scores, k ∈ l.players) ∧
  (∀ k ∈ keysA l.positions, k ∈ l.players) ∧
  l.players.length ≤ l.max_players ∧
  l.max_players = 4

/-- The invariant holds for every lobby in the registry. -/
def StateInv (s : ServerState) : Prop :=
  ∀ p ∈ s.lobbies, LobbyInv p.2

instance (l : Lobby) : Decidable (LobbyInv l) := by
  unfold LobbyInv; infer_instance

instance (s : ServerState) : Decidable (StateInv s) := by
  unfold StateInv; infer_instance

theorem lobbyInv_new (lobby_id username : String) :
    LobbyInv (newLobby lobby_id username) := by
  refine ⟨?_, ?_, ?_, ?_, rfl⟩ <;> simp [newLobby, keysA]

theorem lobbyInv_join {l : Lobby} (h : LobbyInv l) (u : String)
    (hlen : l.players.length < l.max_players) :
    LobbyInv { l with
      players := l.players ++ [u]
      scores := setA l.scores u 0
      positions := setA l.positions u origin } := by
  obtain ⟨h1, h2, h3, h4, h5⟩ := h
  refine ⟨List.mem_append_left _ h1, ?_, ?_, ?_, h5⟩
  · intro k hk
    rcases keysA_setA hk with hk1 | hk1
    · exact List.mem_append_left _ (h2 k hk1)
    · subst hk1; simp
  · intro k hk
    rcases keysA_setA hk with hk1 | hk1
    · exact List.mem_append_left _ (h3 k hk1)
    · subst hk1; simp
  · simpa using Nat.succ_le_of_lt hlen

theorem lobbyInv_erase {l : Lobby} (h : LobbyInv l) {u : String}
    (hu : u ≠ l.creator) (r : List String) :
    LobbyInv { l with
      players := l.players.erase u
      scores := eraseA l.scores u
      positions := eraseA l.positions u
      ready_players := r } := by
  obtain ⟨h1, h2, h3, h4, h5⟩ := h
  refine ⟨?_, ?_, ?_, ?_, h5⟩
  · exact (List.mem_erase_of_ne (Ne.symm hu)).mpr h1
  · intro k hk
    obtain ⟨hk1, hk2⟩ := keysA_eraseA hk
    exact (List.mem_erase_of_ne hk2).mpr (h2 k hk1)
  · intro k hk
    obtain ⟨hk1, hk2⟩ := keysA_eraseA hk
    exact (List.mem_erase_of_ne hk2).mpr (h3 k hk1)
  · exact le_trans (List.erase_sublist u l.players).length_le h4

theorem lobbyInv_startFields {l : Lobby} (h : LobbyInv l) (st : String)
    (sd : Int) : LobbyInv { l with status := st, seed := sd } := h

theorem lobbyInv_bonusFields {l : Lobby} (h : LobbyInv l)
    (a b : List (String × Rat)) :
    LobbyInv { l with bonus_durations := a, bonus_multipliers := b } := h

theorem lobbyInv_readyField {l : Lobby} (h : LobbyInv l) (r : List String) :
    LobbyInv { l with ready_players := r } := h

theorem lobbyInv_itemsField {l : Lobby} (h : LobbyInv l)
    (its : List (String × Item)) : LobbyInv { l with items := its } := h

theorem lobbyInv_messagesField {l : Lobby} (h : LobbyInv l)
    (ms : List (String × String)) : LobbyInv { l with messages := ms } := h

theorem lobbyInv_collect {l : Lobby} (h : LobbyInv l) {u : String}
    (hu : u ∈ l.players) (its : List (String × Item)) (n : Int) :
    LobbyInv { l with items := its, scores := setA l.scores u n } := by
  obtain ⟨h1, h2, h3, h4, h5⟩ := h
  refine ⟨h1, ?_, h3, h4, h5⟩
  intro k hk
  rcases keysA_setA hk with hk1 | hk1
  · exact h2 k hk1
  · subst hk1; exact hu

theorem lobbyInv_pos {l : Lobby} (h : LobbyInv l) {u : String}
    (hu : u ∈ l.players) (p : Pos3) :
    LobbyInv { l with positions := setA l.positions u p } := by
  obtain ⟨h1, h2, h3, h4, h5⟩ := h
  refine ⟨h1, h2, ?_, h4, h5⟩
  intro k hk
  rcases keysA_setA hk with hk1 | hk1
  · exact h3 k hk1
  · subst hk1; exact hu

theorem stateInv_setById {s : ServerState} (h : StateInv s) {lid : String}
    {c : String} {lobby l' : Lobby}
    (hf : findByLobbyId s.lobbies lid = some (c, lobby))
    (hl : LobbyInv lobby → LobbyInv l') (cl : List (String × List Nat)) :
    StateInv { lobbies := setByLobbyId s.lobbies lid l', clients := cl } := by
  intro p hp
  rcases mem_setByLobbyId hp with h1 | ⟨l₀, h2, h3⟩
  · exact h p h1
  · rw [hf] at h2
    injection h2 with h2
    injection h2 with h2a h2b
    rw [h3]
    exact hl (h2b ▸ h (c, lobby) (findByLobbyId_mem hf).1)

theorem stateInv_setA {s : ServerState} (h : StateInv s) {c : String}
    {l' : Lobby} (hl : LobbyInv l') (cl : List (String × List Nat)) :
    StateInv { lobbies := setA s.lobbies c l', clients := cl } := by
  intro p hp
  rcases mem_setA hp with h1 | h1
  · exact h p h1
  · rw [h1]; exact hl

theorem stateInv_eraseA {s : ServerState} (h : StateInv s) (c : String)
    (cl : List (String × List Nat)) :
    StateInv { lobbies := eraseA s.lobbies c, clients := cl } :=
  fun p hp => h p (mem_eraseA hp).1

theorem inv_handleCreate (freshId : String) (ws : Nat) (s : ServerState)
    (username : String) (h : StateInv s) :
    StateInv (handleCreate freshId ws s username).1 := by
  unfold handleCreate
  split
  · exact h
  · split
    · exact h
    · exact stateInv_setA h (lobbyInv_new freshId username) _

theorem inv_handleJoin (dead : List Nat) (ws : Nat) (s : ServerState)
    (creator username : String) (h : StateInv s) :
    StateInv (handleJoin dead ws s creator username).1 := by
  unfold handleJoin
  split
  · exact h
  · split
    · exact h
    · rename_i lobby heq
      split
      · exact h
      · split
        · exact h
        · split
          · exact h
          · rename_i hfull hmem hst
            exact stateInv_setA h
              (lobbyInv_join (h (creator, lobby) (getA_mem heq)) username
                (lt_of_not_le hfull)) _

theorem inv_handleStart (dead : List Nat) (ws : Nat) (s : ServerState)
    (username lobby_id : String) (seed : Int) (h : StateInv s) :
    StateInv (handleStart dead ws s username lobby_id seed).1 := by
  unfold handleStart
  split
  · exact h
  · rename_i p c lobby heq
    split
    · exact h
    · exact stateInv_setById h heq
        (fun hl => lobbyInv_startFields hl _ _) _

theorem inv_handleSetBonusData (ws : Nat) (s : ServerState)
    (username lobby_id : String) (bd bm : Option (List (String × Rat)))
    (h : StateInv s) :
    StateInv (handleSetBonusData ws s username lobby_id bd bm).1 := by
  unfold handleSetBonusData
  split
  · exact h
  · rename_i p c lobby heq
    split
    · exact h
    · exact stateInv_setById h heq
        (fun hl => lobbyInv_bonusFields hl _ _) _

theorem inv_handleLeave (dead : List Nat) (ws : Nat) (s : ServerState)
    (lobby_id username : String) (h : StateInv s) :
    StateInv (handleLeave dead ws s lobby_id username).1 := by
  unfold handleLeave
  split
  · exact h
  · rename_i p creator lobby heq
    split
    · exact stateInv_eraseA h creator _
    · rename_i hcr
      split
      · exact stateInv_setById h heq
          (fun hl => lobbyInv_erase hl hcr _) _
      · exact h

theorem inv_handleReady (dead : List Nat) (ws : Nat) (s : ServerState)
    (username lobby_id : String) (h : StateInv s) :
    StateInv (handleReady dead ws s username lobby_id).1 := by
  unfold handleReady
  split
  · exact h
  · rename_i p c lobby heq
    split
    · exact h
    · split
      · exact h
      · dsimp only
        split
        · exact stateInv_setById h heq
            (fun hl => lobbyInv_readyField hl _) _
        · exact stateInv_setById h heq
            (fun hl => lobbyInv_readyField hl _) _

theorem inv_handleUpdatePosition (dead : List Nat) (ws : Nat) (s : ServerState)
    (lobby_id username : String) (x y z : JVal) (h : StateInv s) :
    StateInv (handleUpdatePosition dead ws s lobby_id username x y z).1 := by
  unfold handleUpdatePosition
  split
  · exact h
  · rename_i p c lobby heq
    split
    · exact h
    · rename_i hmem
      exact stateInv_setById h heq
        (fun hl => lobbyInv_pos hl (not_not.mp hmem) _) _

theorem inv_handleCollectItem (dead : List Nat) (ws : Nat) (s : ServerState)
    (lobby_id username item_id : String) (h : StateInv s) :
    StateInv (handleCollectItem dead ws s lobby_id username item_id).1 := by
  unfold handleCollectItem
  split
  · exact h
  · rename_i p c lobby heq
    split
    · exact h
    · rename_i hmem
      split
      · exact h
      · split
        · exact h
        · exact stateInv_setById h heq
            (fun hl => lobbyInv_collect hl (not_not.mp hmem) _ _) _

theorem inv_handleCollectBonus (dead : List Nat) (ws : Nat) (s : ServerState)
    (lobby_id username item_id bonus_type : String) (h : StateInv s) :
    StateInv (handleCollectBonus dead ws s lobby_id username item_id
      bonus_type).1 := by
  unfold handleCollectBonus
  split
  · exact h
  · rename_i p c lobby heq
    split
    · exact h
    · split
      · exact h
      · split
        · exact h
        · split
          · exact h
          · exact stateInv_setById h heq
              (fun hl => lobbyInv_itemsField hl _) _

theorem inv_handleRegisterItems (dead : List Nat) (ws : Nat) (s : ServerState)
    (lobby_id : String) (items : List RegItem) (h : StateInv s) :
    StateInv (handleRegisterItems dead ws s lobby_id items).1 := by
  unfold handleRegisterItems
  split
  · exact h
  · rename_i p c lobby heq
    exact stateInv_setById h heq (fun hl => lobbyInv_itemsField hl _) _

theorem inv_handleSendMessage (dead : List Nat) (ws : Nat) (s : ServerState)
    (lobby_id username chat : String) (h : StateInv s) :
    StateInv (handleSendMessage dead ws s lobby_id username chat).1 := by
  unfold handleSendMessage
  split
  · exact h
  · rename_i p c lobby heq
    split
    · exact h
    · split
      · exact h
      · exact stateInv_setById h heq
          (fun hl => lobbyInv_messagesField hl _) _

theorem pruneLoop_inv (dead : List Nat) (lid : String) :
    ∀ (q : List String) (lobby : Lobby) (cl : List (String × List Nat))
      (outs : List Out), LobbyInv lobby →
      LobbyInv (pruneLoop dead lid q lobby cl outs).1 := by
  intro q
  induction q with
  | nil => intro lobby cl outs h; exact h
  | cons u rest ih =>
    intro lobby cl outs h
    simp only [pruneLoop]
    split
    · rename_i hu
      exact ih _ _ _ (lobbyInv_erase h hu _)
    · exact ih _ _ _ h

theorem discLobbyLoop_inv (dead : List Nat) (lid : String) :
    ∀ (L : List (String × Lobby)) (cl : List (String × List Nat))
      (outs : List Out), (∀ p ∈ L, LobbyInv p.2) →
      ∀ p ∈ (discLobbyLoop dead lid L cl outs).1, LobbyInv p.2 := by
  intro L
  induction L with
  | nil => intro cl outs h p hp; simp [discLobbyLoop] at hp
  | cons q rest ih =>
    intro cl outs h p hp
    obtain ⟨c, l⟩ := q
    simp only [discLobbyLoop] at hp
    split at hp
    · split at hp
      · exact ih _ _ (fun r hr => h r (List.mem_cons_of_mem _ hr)) p hp
      · rcases List.mem_cons.mp hp with h1 | h1
        · rw [h1]
          exact pruneLoop_inv dead lid l.players l _ _
            (h (c, l) (List.mem_cons_self _ _))
        · exact ih _ _ (fun r hr => h r (List.mem_cons_of_mem _ hr)) p h1
    · rcases List.mem_cons.mp hp with h1 | h1
      · rw [h1]; exact h (c, l) (List.mem_cons_self _ _)
      · exact ih _ _ (fun r hr => h r (List.mem_cons_of_mem _ hr)) p h1

theorem inv_handle_disconnect (dead : List Nat) (ws : Nat) (s : ServerState)
    (h : StateInv s) : StateInv (handle_disconnect dead ws s).1 := by
  unfold handle_disconnect
  split
  · exact h
  · rename_i p lid conns heq
    exact discLobbyLoop_inv dead lid s.lobbies _ _ h

theorem inv_create_lobby (freshId : String) (s : ServerState)
    (username : String) (h : StateInv s) :
    StateInv (create_lobby freshId s username).1 := by
  unfold create_lobby
  split
  · exact h
  · split
    · exact h
    · exact stateInv_setA h (lobbyInv_new freshId username) _

theorem inv_join_lobby (dead : List Nat) (s : ServerState)
    (creator username : String) (h : StateInv s) :
    StateInv (join_lobby dead s creator username).1 := by
  unfold join_lobby
  split
  · exact h
  · split
    · exact h
    · rename_i lobby heq
      split
      · exact h
      · split
        · exact h
        · rename_i hfull hmem
          exact stateInv_setA h
            (lobbyInv_join (h (creator, lobby) (getA_mem heq)) username
              (lt_of_not_le hfull)) _

theorem inv_start_game (dead : List Nat) (s : ServerState)
    (lobby_id username : String) (seed : Int)
    (bd : Option (List (String × Rat))) (h : StateInv s) :
    StateInv (start_game dead s lobby_id username seed bd).1 := by
  unfold start_game
  split
  · exact h
  · rename_i p c lobby heq
    split
    · exact h
    · apply stateInv_setById h heq ?_ _
      intro hl
      have h1 : LobbyInv
          (if truthyMap bd = true then
            { lobby with bonus_durations := bd.getD [] }
          else lobby) := by
        split
        · exact lobbyInv_bonusFields hl _ lobby.bonus_multipliers
        · exact hl
      exact lobbyInv_startFields h1 _ _

theorem inv_wsStep (dead : List Nat) (freshId : String) (ws : Nat)
    (s : ServerState) (msg : InMsg) (h : StateInv s) :
    StateInv (wsStep dead freshId ws s msg).1 := by
  unfold wsStep
  by_cases h1 : msg.action = "create"
  · rw [if_pos h1]; exact inv_handleCreate _ _ _ _ h
  · rw [if_neg h1]
    by_cases h2 : msg.action = "join"
    · rw [if_pos h2]; exact inv_handleJoin _ _ _ _ _ h
    · rw [if_neg h2]
      by_cases h3 : msg.action = "start"
      · rw [if_pos h3]; exact inv_handleStart _ _ _ _ _ _ h
      · rw [if_neg h3]
        by_cases h4 : msg.action = "set_bonus_data"
        · rw [if_pos h4]; exact inv_handleSetBonusData _ _ _ _ _ _ h
        · rw [if_neg h4]
          by_cases h5 : msg.action = "leave"
          · rw [if_pos h5]; exact inv_handleLeave _ _ _ _ _ h
          · rw [if_neg h5]
            by_cases h6 : msg.action = "ready"
            · rw [if_pos h6]; exact inv_handleReady _ _ _ _ _ h
            · rw [if_neg h6]
              by_cases h7 : msg.action = "update_position"
              · rw [if_pos h7]
                exact inv_handleUpdatePosition _ _ _ _ _ _ _ _ h
              · rw [if_neg h7]
                by_cases h8 : msg.action = "collect_item"
                · rw [if_pos h8]; exact inv_handleCollectItem _ _ _ _ _ _ h
                · rw [if_neg h8]
                  by_cases h9 : msg.action = "collect_bonus"
                  · rw [if_pos h9]
                    exact inv_handleCollectBonus _ _ _ _ _ _ _ h
                  · rw [if_neg h9]
                    by_cases h10 : msg.action = "register_items"
                    · rw [if_pos h10]
                      exact inv_handleRegisterItems _ _ _ _ _ h
                    · rw [if_neg h10]
                      by_cases h11 : msg.action = "send_message"
                      · rw [if_pos h11]
                        exact inv_handleSendMessage _ _ _ _ _ _ h
                      · rw [if_neg h11]
                        by_cases h12 : msg.action = "get_lobbies"
                        · rw [if_pos h12]; exact h
                        · rw [if_neg h12]
                          by_cases h13 : msg.action = "ping"
                          · rw [if_pos h13]; exact h
                          · rw [if_neg h13]; exact h

/-- C5: every operation of the protocol — the websocket actions
(create, join, start, ready, leave, update_position, register_items,
collect_item, collect_bonus, set_bonus_data, send_message), the HTTP
mirror endpoints and the disconnect reconciler — preserves the lobby
invariants: the creator is a member, the key sets of the scores and
positions maps are subsets of the member list, and the member count
never exceeds the capacity of 4. -/
theorem claim_C5_invariants_preserved {s s' : ServerState}
    (hstep : SysStep s s') (h : StateInv s) : StateInv s' := by
  cases hstep with
  | wsAct dead freshId ws msg s => exact inv_wsStep dead freshId ws s msg h
  | disc dead ws s => exact inv_handle_disconnect dead ws s h
  | httpCreate freshId username s => exact inv_create_lobby freshId s username h
  | httpJoin dead creator username s =>
    exact inv_join_lobby dead s creator username h
  | httpStart dead lobby_id username seed bd s =>
    exact inv_start_game dead s lobby_id username seed bd h

/-- A concrete one-lobby state used by several witnesses. -/
def wState1 : ServerState :=
  { lobbies := [("@A", newLobby "L1" "@A")], clients := [("L1", [1])] }

/-- A concrete `join` message used by the C5 witness. -/
def wJoinMsg : InMsg :=
  { action := "join", username := "@B", creator := "@A", lobby_id := "L1"
    seed := 0, x := JVal.jnum 0, y := JVal.jnum 0, z := JVal.jnum 0
    item_id := "", bonus_type := "", bonus_durations := none
    bonus_multipliers := none, items := [], chat := "" }

theorem claim_C5_witness :
    StateInv wState1 ∧ StateInv (wsStep [] "L1" 2 wState1 wJoinMsg).1 :=
  ⟨by decide,
   claim_C5_invariants_preserved (SysStep.wsAct [] "L1" 2 wJoinMsg wState1)
     (by decide)⟩

/-- Relation between two registry snapshots: every lobby that reads
`started` under some creator key in the first still reads `started`
under that key in the second, unless the key is gone. -/
def StartedPersists (m m' : List (String × Lobby)) : Prop :=
  ∀ c l, getA m c = some l → l.status = "started" →
    ∀ l', getA m' c = some l' → l'.status = "started"

theorem SP_refl (m : List (String × Lobby)) : StartedPersists m m := by
  intro c l hc hst l' hc'
  rw [hc] at hc'
  injection hc' with h
  rw [← h]
  exact hst

theorem SP_setA_fresh {m : List (String × Lobby)} {u : String} {l₁ : Lobby}
    (hu : getA m u = none) : StartedPersists m (setA m u l₁) := by
  intro c l hc hst l' hc'
  by_cases hcu : c = u
  · subst hcu; rw [hc] at hu; cases hu
  · rw [getA_setA_ne _ _ _ _ hcu] at hc'
    rw [hc] at hc'
    injection hc' with h
    rw [← h]
    exact hst

theorem SP_setA_write {m : List (String × Lobby)} {u : String}
    {lobby l₁ : Lobby} (hu : getA m u = some lobby)
    (hst1 : l₁.status = lobby.status ∨ l₁.status = "started") :
    StartedPersists m (setA m u l₁) := by
  intro c l hc hst l' hc'
  by_cases hcu : c = u
  · subst hcu
    rw [getA_setA_self] at hc'
    injection hc' with h
    rw [hc] at hu
    injection hu with hu
    rw [← h]
    rcases hst1 with h1 | h1
    · rw [h1, ← hu]; exact hst
    · exact h1
  · rw [getA_setA_ne _ _ _ _ hcu] at hc'
    rw [hc] at hc'
    injection hc' with h
    rw [← h]
    exact hst

theorem SP_setById {m : List (String × Lobby)} {lid : String} {c₀ : String}
    {lobby l₁ : Lobby} (hf : findByLobbyId m lid = some (c₀, lobby))
    (hst1 : l₁.status = lobby.status ∨ l₁.status = "started") :
    StartedPersists m (setByLobbyId m lid l₁) := by
  intro c l hc hst l' hc'
  rcases @getA_setByLobbyId m lid l₁ c with
    h1 | ⟨l₀, h2, h3, h4⟩
  · rw [h1] at hc'
    rw [hc] at hc'
    injection hc' with h
    rw [← h]
    exact hst
  · rw [hf] at h2
    injection h2 with h2
    injection h2 with h2a h2b
    rw [hc] at h3
    injection h3 with h3
    rw [hc'] at h4
    injection h4 with h4
    rw [h4]
    rcases hst1 with hh | hh
    · rw [hh, h2b, ← h3]; exact hst
    · exact hh

theorem SP_eraseA {m : List (String × Lobby)} (key : String) :
    StartedPersists m (eraseA m key) := by
  intro c l hc hst l' hc'
  by_cases hck : c = key
  · subst hck; rw [getA_eraseA_self] at hc'; cases hc'
  · rw [getA_eraseA_ne _ _ _ hck] at hc'
    rw [hc] at hc'
    injection hc' with h
    rw [← h]
    exact hst

theorem pruneLoop_fields (dead : List Nat) (lid : String) :
    ∀ (q : List String) (lobby : Lobby) (cl : List (String × List Nat))
      (outs : List Out),
      (pruneLoop dead lid q lobby cl outs).1.status = lobby.status ∧
      (pruneLoop dead lid q lobby cl outs).1.creator = lobby.creator ∧
      (pruneLoop dead lid q lobby cl outs).1.lobby_id = lobby.lobby_id := by
  intro q
  induction q with
  | nil => intro lobby cl outs; exact ⟨rfl, rfl, rfl⟩
  | cons u rest ih =>
    intro lobby cl outs
    simp only [pruneLoop]
    split
    · exact ih _ _ _
    · exact ih _ _ _

theorem discLobbyLoop_mem_keys (dead : List Nat) (lid : String) :
    ∀ (L : List (String × Lobby)) (cl : List (String × List Nat))
      (outs : List Out) (p : String × Lobby),
      p ∈ (discLobbyLoop dead lid L cl outs).1 → p.1 ∈ keysA L := by
  intro L
  induction L with
  | nil => intro cl outs p hp; simp [discLobbyLoop] at hp
  | cons q rest ih =>
    intro cl outs p hp
    obtain ⟨c, l⟩ := q
    simp only [discLobbyLoop] at hp
    split at hp
    · split at hp
      · exact List.mem_cons_of_mem _ (ih _ _ p hp)
      · rcases List.mem_cons.mp hp with h1 | h1
        · rw [h1]; exact List.mem_cons_self _ _
        · exact List.mem_cons_of_mem _ (ih _ _ p h1)
    · rcases List.mem_cons.mp hp with h1 | h1
      · rw [h1]; exact List.mem_cons_self _ _
      · exact List.mem_cons_of_mem _ (ih _ _ p h1)

theorem SP_discLoop (dead : List Nat) (lid : String) :
    ∀ (L : List (String × Lobby)) (cl : List (String × List Nat))
      (outs : List Out), (keysA L).Nodup →
      StartedPersists L (discLobbyLoop dead lid L cl outs).1 := by
  intro L
  induction L with
  | nil =>
    intro cl outs hnd c l hc hst l' hc'
    cases hc
  | cons q rest ih =>
    intro cl outs hnd c l hc hst l' hc'
    obtain ⟨c₀, l₀⟩ := q
    rw [keysA, List.map_cons] at hnd
    have hnotin : c₀ ∉ keysA rest := (List.nodup_cons.mp hnd).1
    have hnd2 : (keysA rest).Nodup := (List.nodup_cons.mp hnd).2
    simp only [getA] at hc
    simp only [discLobbyLoop] at hc'
    split at hc'
    · split at hc'
      · by_cases hcc : c₀ = c
        · exfalso
          have := getA_mem hc'
          have := discLobbyLoop_mem_keys dead lid rest _ _ _ this
          rw [hcc] at hnotin
          exact hnotin this
        · rw [if_neg hcc] at hc
          exact ih _ _ hnd2 c l hc hst l' hc'
      · simp only [getA] at hc'
        by_cases hcc : c₀ = c
        · rw [if_pos hcc] at hc hc'
          injection hc with hc
          injection hc' with hc'
          rw [← hc']
          have hpf := (pruneLoop_fields dead lid l₀.players l₀ cl outs).1
          rw [hpf, hc]
          exact hst
        · rw [if_neg hcc] at hc hc'
          exact ih _ _ hnd2 c l hc hst l' hc'
    · simp only [getA] at hc'
      by_cases hcc : c₀ = c
      · rw [if_pos hcc] at hc hc'
        injection hc with hc
        injection hc' with hc'
        rw [← hc', hc]
        exact hst
      · rw [if_neg hcc] at hc hc'
        exact ih _ _ hnd2 c l hc hst l' hc'

theorem SP_handleCreate (freshId : String) (ws : Nat) (s : ServerState)
    (username : String) :
    StartedPersists s.lobbies (handleCreate freshId ws s username).1.lobbies := by
  unfold handleCreate
  split
  · exact SP_refl _
  · split
    · exact SP_refl _
    · rename_i hdup
      exact SP_setA_fresh (Option.not_isSome_iff_eq_none.mp hdup)

theorem SP_handleJoin (dead : List Nat) (ws : Nat) (s : ServerState)
    (creator username : String) :
    StartedPersists s.lobbies
      (handleJoin dead ws s creator username).1.lobbies := by
  unfold handleJoin
  split
  · exact SP_refl _
  · split
    · exact SP_refl _
    · rename_i lobby heq
      split
      · exact SP_refl _
      · split
        · exact SP_refl _
        · split
          · exact SP_refl _
          · exact SP_setA_write heq (Or.inl rfl)

theorem SP_handleStart (dead : List Nat) (ws : Nat) (s : ServerState)
    (username lobby_id : String) (seed : Int) :
    StartedPersists s.lobbies
      (handleStart dead ws s username lobby_id seed).1.lobbies := by
  unfold handleStart
  split
  · exact SP_refl _
  · rename_i p c lobby heq
    split
    · exact SP_refl _
    · exact SP_setById heq (Or.inr rfl)

theorem SP_handleSetBonusData (ws : Nat) (s : ServerState)
    (username lobby_id : String) (bd bm : Option (List (String × Rat))) :
    StartedPersists s.lobbies
      (handleSetBonusData ws s username lobby_id bd bm).1.lobbies := by
  unfold handleSetBonusData
  split
  · exact SP_refl _
  · rename_i p c lobby heq
    split
    · exact SP_refl _
    · exact SP_setById heq (Or.inl rfl)

theorem SP_handleLeave (dead : List Nat) (ws : Nat) (s : ServerState)
    (lobby_id username : String) :
    StartedPersists s.lobbies
      (handleLeave dead ws s lobby_id username).1.lobbies := by
  unfold handleLeave
  split
  · exact SP_refl _
  · rename_i p creator lobby heq
    split
    · exact SP_eraseA creator
    · split
      · exact SP_setById heq (Or.inl rfl)
      · exact SP_refl _

theorem SP_handleReady (dead : List Nat) (ws : Nat) (s : ServerState)
    (username lobby_id : String) :
    StartedPersists s.lobbies
      (handleReady dead ws s username lobby_id).1.lobbies := by
  unfold handleReady
  split
  · exact SP_refl _
  · rename_i p c lobby heq
    split
    · exact SP_refl _
    · split
      · exact SP_refl _
      · dsimp only
        split
        · exact SP_setById heq (Or.inl rfl)
        · exact SP_setById heq (Or.inl rfl)

theorem SP_handleUpdatePosition (dead : List Nat) (ws : Nat) (s : ServerState)
    (lobby_id username : String) (x y z : JVal) :
    StartedPersists s.lobbies
      (handleUpdatePosition dead ws s lobby_id username x y z).1.lobbies := by
  unfold handleUpdatePosition
  split
  · exact SP_refl _
  · rename_i p c lobby heq
    split
    · exact SP_refl _
    · exact SP_setById heq (Or.inl rfl)

theorem SP_handleCollectItem (dead : List Nat) (ws : Nat) (s : ServerState)
    (lobby_id username item_id : String) :
    StartedPersists s.lobbies
      (handleCollectItem dead ws s lobby_id username item_id).1.lobbies := by
  unfold handleCollectItem
  split
  · exact SP_refl _
  · rename_i p c lobby heq
    split
    · exact SP_refl _
    · split
      · exact SP_refl _
      · split
        · exact SP_refl _
        · exact SP_setById heq (Or.inl rfl)

theorem SP_handleCollectBonus (dead : List Nat) (ws : Nat) (s : ServerState)
    (lobby_id username item_id bonus_type : String) :
    StartedPersists s.lobbies
      (handleCollectBonus dead ws s lobby_id username item_id
        bonus_type).1.lobbies := by
  unfold handleCollectBonus
  split
  · exact SP_refl _
  · rename_i p c lobby heq
    split
    · exact SP_refl _
    · split
      · exact SP_refl _
      · split
        · exact SP_refl _
        · split
          · exact SP_refl _
          · exact SP_setById heq (Or.inl rfl)

theorem SP_handleRegisterItems (dead : List Nat) (ws : Nat) (s : ServerState)
    (lobby_id : String) (items : List RegItem) :
    StartedPersists s.lobbies
      (handleRegisterItems dead ws s lobby_id items).1.lobbies := by
  unfold handleRegisterItems
  split
  · exact SP_refl _
  · rename_i p c lobby heq
    exact SP_setById heq (Or.inl rfl)

theorem SP_handleSendMessage (dead : List Nat) (ws : Nat) (s : ServerState)
    (lobby_id username chat : String) :
    StartedPersists s.lobbies
      (handleSendMessage dead ws s lobby_id username chat).1.lobbies := by
  unfold handleSendMessage
  split
  · exact SP_refl _
  · rename_i p c lobby heq
    split
    · exact SP_refl _
    · split
      · exact SP_refl _
      · exact SP_setById heq (Or.inl rfl)

theorem SP_handle_disconnect (dead : List Nat) (ws : Nat) (s : ServerState)
    (hnd : (keysA s.lobbies).Nodup) :
    StartedPersists s.lobbies (handle_disconnect dead ws s).1.lobbies := by
  unfold handle_disconnect
  split
  · exact SP_refl _
  · rename_i p lid conns heq
    exact SP_discLoop dead lid s.lobbies _ _ hnd

theorem SP_create_lobby (freshId : String) (s : ServerState)
    (username : String) :
    StartedPersists s.lobbies (create_lobby freshId s username).1.lobbies := by
  unfold create_lobby
  split
  · exact SP_refl _
  · split
    · exact SP_refl _
    · rename_i hdup
      exact SP_setA_fresh (Option.not_isSome_iff_eq_none.mp hdup)

theorem SP_join_lobby (dead : List Nat) (s : ServerState)
    (creator username : String) :
    StartedPersists s.lobbies (join_lobby dead s creator username).1.lobbies := by
  unfold join_lobby
  split
  · exact SP_refl _
  · split
    · exact SP_refl _
    · rename_i lobby heq
      split
      · exact SP_refl _
      · split
        · exact SP_refl _
        · exact SP_setA_write heq (Or.inl rfl)

theorem SP_start_game (dead : List Nat) (s : ServerState)
    (lobby_id username : String) (seed : Int)
    (bd : Option (List (String × Rat))) :
    StartedPersists s.lobbies
      (start_game dead s lobby_id username seed bd).1.lobbies := by
  unfold start_game
  split
  · exact SP_refl _
  · rename_i p c lobby heq
    split
    · exact SP_refl _
    · exact SP_setById heq (Or.inr rfl)

theorem SP_wsStep (dead : List Nat) (freshId : String) (ws : Nat)
    (s : ServerState) (msg : InMsg) :
    StartedPersists s.lobbies (wsStep dead freshId ws s msg).1.lobbies := by
  unfold wsStep
  by_cases h1 : msg.action = "create"
  · rw [if_pos h1]; exact SP_handleCreate _ _ _ _
  · rw [if_neg h1]
    by_cases h2 : msg.action = "join"
    · rw [if_pos h2]; exact SP_handleJoin _ _ _ _ _
    · rw [if_neg h2]
      by_cases h3 : msg.action = "start"
      · rw [if_pos h3]; exact SP_handleStart _ _ _ _ _ _
      · rw [if_neg h3]
        by_cases h4 : msg.action = "set_bonus_data"
        · rw [if_pos h4]; exact SP_handleSetBonusData _ _ _ _ _ _
        · rw [if_neg h4]
          by_cases h5 : msg.action = "leave"
          · rw [if_pos h5]; exact SP_handleLeave _ _ _ _ _
          · rw [if_neg h5]
            by_cases h6 : msg.action = "ready"
            · rw [if_pos h6]; exact SP_handleReady _ _ _ _ _
            · rw [if_neg h6]
              by_cases h7 : msg.action = "update_position"
              · rw [if_pos h7]; exact SP_handleUpdatePosition _ _ _ _ _ _ _ _
              · rw [if_neg h7]
                by_cases h8 : msg.action = "collect_item"
                · rw [if_pos h8]; exact SP_handleCollectItem _ _ _ _ _ _
                · rw [if_neg h8]
                  by_cases h9 : msg.action = "collect_bonus"
                  · rw [if_pos h9]; exact SP_handleCollectBonus _ _ _ _ _ _ _
                  · rw [if_neg h9]
                    by_cases h10 : msg.action = "register_items"
                    · rw [if_pos h10]; exact SP_handleRegisterItems _ _ _ _ _
                    · rw [if_neg h10]
                      by_cases h11 : msg.action = "send_message"
                      · rw [if_pos h11]; exact SP_handleSendMessage _ _ _ _ _ _
                      · rw [if_neg h11]
                        by_cases h12 : msg.action = "get_lobbies"
                        · rw [if_pos h12]; exact SP_refl _
                        · rw [if_neg h12]
                          by_cases h13 : msg.action = "ping"
                          · rw [if_pos h13]; exact SP_refl _
                          · rw [if_neg h13]; exact SP_refl _

/-- C8: once a lobby's status has become `started`, it reads `started`
under its registry key in every subsequent state (over any protocol
action, HTTP call or disconnect) until the lobby is destroyed; no
action resets a status to `waiting`.  The registry is assumed to have
no duplicate creator keys, which holds of every Python dict. -/
theorem claim_C8_started_persists {s s' : ServerState} (hstep : SysStep s s')
    (hnd : (keysA s.lobbies).Nodup) {c : String} {l : Lobby}
    (hc : getA s.lobbies c = some l) (hst : l.status = "started") {l' : Lobby}
    (hc' : getA s'.lobbies c = some l') : l'.status = "started" := by
  have hsp : StartedPersists s.lobbies s'.lobbies := by
    cases hstep with
    | wsAct dead freshId ws msg s => exact SP_wsStep dead freshId ws s msg
    | disc dead ws s => exact SP_handle_disconnect dead ws s hnd
    | httpCreate freshId username s => exact SP_create_lobby freshId s username
    | httpJoin dead creator username s =>
      exact SP_join_lobby dead s creator username
    | httpStart dead lobby_id username seed bd s =>
      exact SP_start_game dead s lobby_id username seed bd
  exact hsp c l hc hst l' hc'

/-- A started one-lobby state used by the C8 witness. -/
def wStartedLobby : Lobby := { newLobby "L1" "@A" with status := "started" }

/-- The server state holding `wStartedLobby`. -/
def wStateC8 : ServerState :=
  { lobbies := [("@A", wStartedLobby)], clients := [("L1", [1])] }

/-- A concrete `ping` message. -/
def wPingMsg : InMsg :=
  { action := "ping", username := "@A", creator := "", lobby_id := "L1"
    seed := 0, x := JVal.jnum 0, y := JVal.jnum 0, z := JVal.jnum 0
    item_id := "", bonus_type := "", bonus_durations := none
    bonus_multipliers := none, items := [], chat := "" }

theorem claim_C8_witness : wStartedLobby.status = "started" :=
  @claim_C8_started_persists wStateC8 (wsStep [] "F" 5 wStateC8 wPingMsg).1
    (SysStep.wsAct [] "F" 5 wPingMsg wStateC8) (by decide) "@A" wStartedLobby
    rfl rfl wStartedLobby rfl

theorem findByLobbyId_setByLobbyId {m : List (String × Lobby)} {lid : String}
    {c : String} {lobby l' : Lobby}
    (hf : findByLobbyId m lid = some (c, lobby)) (hid : l'.lobby_id = lid) :
    findByLobbyId (setByLobbyId m lid l') lid = some (c, l') := by
  induction m with
  | nil => simp [findByLobbyId] at hf
  | cons q rest ih =>
    obtain ⟨c₀, l₀⟩ := q
    simp only [findByLobbyId, setByLobbyId] at hf ⊢
    split at hf
    · rename_i h0
      rw [if_pos h0]
      injection hf with hf
      injection hf with hf1 hf2
      simp only [findByLobbyId, if_pos hid]
      rw [hf1]
    · rename_i h0
      rw [if_neg h0]
      simp only [findByLobbyId, if_neg h0]
      exact ih hf

/-- C9: a broadcast through `notify_clients` prunes every dead
connection from the lobby's connection set and still delivers the
message, in order, to every live connection — a failure never aborts
the remaining deliveries. -/
theorem claim_C9_broadcast_prunes (dead : List Nat)
    {cl : List (String × List Nat)} {lid : String} {conns : List Nat}
    (h : getA cl lid = some conns) (m : BMsg) :
    notify_clients dead cl lid m =
      (setA cl lid (conns.filter (fun c => !dead.contains c)),
       (conns.filter (fun c => !dead.contains c)).map
         (fun c => Out.deliver c m)) := by
  unfold notify_clients
  rw [h]
  simp only [notifyLoop_eq]

theorem claim_C9_witness :
    notify_clients [2] [("L1", [1, 2, 3])] "L1" (BMsg.allReady "L1") =
      ([("L1", [1, 3])],
       [Out.deliver 1 (BMsg.allReady "L1"),
        Out.deliver 3 (BMsg.allReady "L1")]) := by
  rw [@claim_C9_broadcast_prunes [2] [("L1", [1, 2, 3])] "L1" [1, 2, 3] rfl
    (BMsg.allReady "L1")]
  decide

/-- C7: creating a lobby twice with the same (valid) creator handle and
no intervening destroy yields the duplicate-lobby error on the second
call — on the live channel and on the HTTP endpoint alike — and leaves
the registry and connection-set state exactly as it was after the
first call. -/
theorem claim_C7_duplicate_create {s0 : ServerState} {u : String}
    (hv : is_valid_username u = true) (h0 : getA s0.lobbies u = none)
    (id1 id2 : String) (ws1 ws2 : Nat) :
    handleCreate id2 ws2 (handleCreate id1 ws1 s0 u).1 u =
      ((handleCreate id1 ws1 s0 u).1,
       [Out.send ws2 (SMsg.err "A lobby with this name already exists.")]) ∧
    create_lobby id2 (handleCreate id1 ws1 s0 u).1 u =
      ((handleCreate id1 ws1 s0 u).1,
       HttpResp.rerr "A lobby with this name already exists.") := by
  have e1 : handleCreate id1 ws1 s0 u =
      ({ lobbies := setA s0.lobbies u (newLobby id1 u)
         clients := setA s0.clients id1 [ws1] },
       [Out.send ws1 (SMsg.createReply id1 u [u] "waiting" [])]) := by
    unfold handleCreate
    rw [hv, h0]
    rfl
  rw [e1]
  constructor
  · unfold handleCreate
    rw [hv]
    dsimp only
    rw [getA_setA_self]
    rfl
  · unfold create_lobby
    rw [hv]
    dsimp only
    rw [getA_setA_self]
    rfl

theorem claim_C7_witness :
    handleCreate "id2" 2 (handleCreate "id1" 1 ⟨[], []⟩ "@A").1 "@A" =
      ((handleCreate "id1" 1 ⟨[], []⟩ "@A").1,
       [Out.send 2 (SMsg.err "A lobby with this name already exists.")]) ∧
    create_lobby "id2" (handleCreate "id1" 1 ⟨[], []⟩ "@A").1 "@A" =
      ((handleCreate "id1" 1 ⟨[], []⟩ "@A").1,
       HttpResp.rerr "A lobby with this name already exists.") :=
  claim_C7_duplicate_create (by decide) (by decide) "id1" "id2" 1 2

/-- C6: after a successful first collection of an item, a second
`collect_item` attempt on that item by any member fails with the
already-collected error, changes no state (so no score is incremented)
and broadcasts nothing. -/
theorem claim_C6_already_collected {s : ServerState} {lid c : String}
    {lobby : Lobby} (hf : findByLobbyId s.lobbies lid = some (c, lobby))
    {u1 : String} (hu1 : u1 ∈ lobby.players) {item : String} {it : Item}
    (hit : getA lobby.items item = some it) (hcol : it.collected = false)
    (dead : List Nat) (ws1 ws2 : Nat) {u2 : String}
    (hu2 : u2 ∈ lobby.players) :
    handleCollectItem dead ws2 (handleCollectItem dead ws1 s lid u1 item).1
        lid u2 item =
      ((handleCollectItem dead ws1 s lid u1 item).1,
       [Out.send ws2 (SMsg.err "Item already collected")]) := by
  have hid : lobby.lobby_id = lid := (findByLobbyId_mem hf).2
  have e1 : (handleCollectItem dead ws1 s lid u1 item).1 =
      { lobbies := setByLobbyId s.lobbies lid
          { lobby with
            items := setA lobby.items item { it with collected := true }
            scores := setA lobby.scores u1
              ((getA lobby.scores u1).getD 0 + 1) }
        clients := (notify_clients dead s.clients lid
          (BMsg.itemCollected lid item u1
            (setA lobby.scores u1 ((getA lobby.scores u1).getD 0 + 1)))).1 } := by
    unfold handleCollectItem
    rw [hf]
    dsimp only
    rw [if_neg (not_not_intro hu1), hit]
    dsimp only
    rw [hcol]
    rfl
  rw [e1]
  unfold handleCollectItem
  rw [findByLobbyId_setByLobbyId hf]
  · dsimp only
    rw [if_neg (not_not_intro hu2), getA_setA_self]
    rfl
  · exact hid

/-- The lobby used by the C6 witness: one item, not yet collected. -/
def wItemLobby : Lobby :=
  { newLobby "L1" "@A" with
    items := [("item1", { collected := false, position := origin
                          is_bonus := false, bonus_type := "" })] }

/-- The server state holding `wItemLobby`. -/
def wItemState : ServerState :=
  { lobbies := [("@A", wItemLobby)], clients := [("L1", [1])] }

theorem claim_C6_witness :
    handleCollectItem [] 1 (handleCollectItem [] 1 wItemState "L1" "@A"
        "item1").1 "L1" "@A" "item1" =
      ((handleCollectItem [] 1 wItemState "L1" "@A" "item1").1,
       [Out.send 1 (SMsg.err "Item already collected")]) :=
  claim_C6_already_collected (by rfl) (by decide) (by rfl) (by rfl) [] 1 1
    (by decide)

/-- C3 (amended): a live-channel message whose action tag matches no
recognized action falls off the end of the if/elif chain: the
dispatcher mutates nothing, broadcasts nothing — and, contrary to the
original claim, sends no error reply either (its output list is
empty). -/
theorem claim_C3_unrecognized_ignored (dead : List Nat) (freshId : String)
    (ws : Nat) (s : ServerState) (msg : InMsg)
    (h : msg.action ∉ ["create", "join", "start", "set_bonus_data", "leave",
      "ready", "update_position", "collect_item", "collect_bonus",
      "register_items", "send_message", "get_lobbies", "ping"]) :
    wsStep dead freshId ws s msg = (s, []) := by
  simp only [List.mem_cons, List.not_mem_nil, or_false, not_or] at h
  obtain ⟨h1, h2, h3, h4, h5, h6, h7, h8, h9, h10, h11, h12, h13⟩ := h
  unfold wsStep
  rw [if_neg h1, if_neg h2, if_neg h3, if_neg h4, if_neg h5, if_neg h6,
    if_neg h7, if_neg h8, if_neg h9, if_neg h10, if_neg h11, if_neg h12,
    if_neg h13]

/-- An inbound message with an unrecognized action tag. -/
def wBadMsg : InMsg :=
  { action := "fly", username := "@A", creator := "@A", lobby_id := "L1"
    seed := 0, x := JVal.jnum 0, y := JVal.jnum 0, z := JVal.jnum 0
    item_id := "", bonus_type := "", bonus_durations := none
    bonus_multipliers := none, items := [], chat := "" }

/-- C3 counterexample: on an unrecognized action the dispatcher's
output list is empty — in particular no structured error is sent back
to the sending connection, refuting the claimed error reply. -/
theorem claim_C3_counterexample :
    wsStep [] "F" 8 wState1 wBadMsg = (wState1, []) := rfl

theorem claim_C3_witness :
    wsStep [] "F" 7 wState1 wBadMsg = (wState1, []) :=
  claim_C3_unrecognized_ignored [] "F" 7 wState1 wBadMsg (by decide)

/-- C4 (amended): `set_bonus_data` on an existing lobby by a member
replaces each of the two bonus config dicts *wholesale* when the
corresponding payload field is truthy (present and non-empty), keeps a
dict whose payload field is absent or empty, and acks the sender.
Individual keys inside a supplied dict are not merged: keys missing
from a supplied dict are dropped. -/
theorem claim_C4_set_bonus_data {s : ServerState} {lid c : String}
    {lobby : Lobby} (hf : findByLobbyId s.lobbies lid = some (c, lobby))
    {u : String} (hu : u ∈ lobby.players) (ws : Nat)
    (bd bm : Option (List (String × Rat))) :
    ∃ lobby',
      findByLobbyId (handleSetBonusData ws s u lid bd bm).1.lobbies lid =
        some (c, lobby') ∧
      lobby'.bonus_durations =
        (if truthyMap bd then bd.getD [] else lobby.bonus_durations) ∧
      lobby'.bonus_multipliers =
        (if truthyMap bm then bm.getD [] else lobby.bonus_multipliers) ∧
      lobby'.players = lobby.players ∧ lobby'.scores = lobby.scores ∧
      lobby'.positions = lobby.positions ∧ lobby'.status = lobby.status ∧
      (handleSetBonusData ws s u lid bd bm).2 =
        [Out.send ws (SMsg.info "Bonus data updated")] := by
  have hid : lobby.lobby_id = lid := (findByLobbyId_mem hf).2
  have e : handleSetBonusData ws s u lid bd bm =
      ({ lobbies := setByLobbyId s.lobbies lid
           { lobby with
             bonus_durations :=
               if truthyMap bd then bd.getD [] else lobby.bonus_durations
             bonus_multipliers :=
               if truthyMap bm then bm.getD [] else lobby.bonus_multipliers }
         clients := s.clients },
       [Out.send ws (SMsg.info "Bonus data updated")]) := by
    unfold handleSetBonusData
    rw [hf]
    dsimp only
    rw [if_neg (not_not_intro hu)]
  refine ⟨{ lobby with
      bonus_durations :=
        if truthyMap bd then bd.getD [] else lobby.bonus_durations
      bonus_multipliers :=
        if truthyMap bm then bm.getD [] else lobby.bonus_multipliers },
    ?_, rfl, rfl, rfl, rfl, rfl, rfl, ?_⟩
  · rw [e]
    exact findByLobbyId_setByLobbyId hf hid
  · rw [e]

/-- C4 counterexample: the fresh lobby's bonus-duration config maps
`disable_control_others` to 5.0, and that key is not named in the
supplied payload `{"slow_others": 3}` — yet after `set_bonus_data` the
key is gone (its lookup yields `none`), refuting "every config key not
named in the payload keeps its previous value". -/
theorem claim_C4_counterexample :
    getA (newLobby "L1" "@A").bonus_durations "disable_control_others" =
      some 5 ∧
    (findByLobbyId (handleSetBonusData 1 wState1 "@A" "L1"
        (some [("slow_others", 3)]) none).1.lobbies "L1").map
      (fun p => getA p.2.bonus_durations "disable_control_others") =
      some none :=
  ⟨rfl, rfl⟩

theorem claim_C4_witness :
    ∃ lobby',
      findByLobbyId (handleSetBonusData 1 wState1 "@A" "L1"
          (some [("slow_others", 3)]) none).1.lobbies "L1" =
        some ("@A", lobby') ∧
      lobby'.bonus_durations =
        (if truthyMap (some [("slow_others", 3)]) then
          (some [("slow_others", (3 : Rat))]).getD []
        else (newLobby "L1" "@A").bonus_durations) ∧
      lobby'.bonus_multipliers =
        (if truthyMap none then (none : Option (List (String × Rat))).getD []
        else (newLobby "L1" "@A").bonus_multipliers) ∧
      lobby'.players = (newLobby "L1" "@A").players ∧
      lobby'.scores = (newLobby "L1" "@A").scores ∧
      lobby'.positions = (newLobby "L1" "@A").positions ∧
      lobby'.status = (newLobby "L1" "@A").status ∧
      (handleSetBonusData 1 wState1 "@A" "L1"
        (some [("slow_others", 3)]) none).2 =
        [Out.send 1 (SMsg.info "Bonus data updated")] :=
  claim_C4_set_bonus_data (by rfl) (by decide) 1 (some [("slow_others", 3)])
    none

/-- C10 (amended): `update_position` on an existing lobby by a member
performs no validation of the coordinate payload: whatever values
arrived (numeric or not, with 0.0 substituted for absent keys at parse
time) are stored verbatim as the member's position and the delta is
broadcast to the lobby's connections; no InvalidPayload rejection
exists in the code. -/
theorem claim_C10_update_position_stores {s : ServerState} {lid c : String}
    {lobby : Lobby} (hf : findByLobbyId s.lobbies lid = some (c, lobby))
    {u : String} (hu : u ∈ lobby.players) (ws : Nat) (x y z : JVal)
    {conns : List Nat} (hcl : getA s.clients lid = some conns) :
    ∃ lobby',
      findByLobbyId (handleUpdatePosition [] ws s lid u x y z).1.lobbies lid =
        some (c, lobby') ∧
      getA lobby'.positions u = some ⟨x, y, z⟩ ∧
      (handleUpdatePosition [] ws s lid u x y z).2 =
        conns.map (fun k => Out.deliver k (BMsg.positionDelta lid u x y z)) := by
  have hid : lobby.lobby_id = lid := (findByLobbyId_mem hf).2
  have e : handleUpdatePosition [] ws s lid u x y z =
      ({ lobbies := setByLobbyId s.lobbies lid
           { lobby with positions := setA lobby.positions u ⟨x, y, z⟩ }
         clients := s.clients },
       conns.map (fun k => Out.deliver k (BMsg.positionDelta lid u x y z))) := by
    unfold handleUpdatePosition
    rw [hf]
    dsimp only
    rw [if_neg (not_not_intro hu)]
    rw [notify_clients_noDead hcl]
  refine ⟨{ lobby with positions := setA lobby.positions u ⟨x, y, z⟩ },
    ?_, ?_, ?_⟩
  · rw [e]
    exact findByLobbyId_setByLobbyId hf hid
  · exact getA_setA_self _ _ _
  · rw [e]

/-- An `update_position` message carrying a non-numeric x coordinate. -/
def wPosMsg : InMsg :=
  { action := "update_position", username := "@A", creator := ""
    lobby_id := "L1", seed := 0, x := JVal.jstr "abc", y := JVal.jnum 0
    z := JVal.jnum 0, item_id := "", bonus_type := ""
    bonus_durations := none, bonus_multipliers := none, items := []
    chat := "" }

/-- C10 counterexample: a payload with the non-numeric coordinate
`"abc"` is not rejected: the string is stored as the member's x
coordinate and the position delta is broadcast — there is no
InvalidPayload error and the stored position changes. -/
theorem claim_C10_counterexample :
    wsStep [] "F" 1 wState1 wPosMsg =
      ({ lobbies := [("@A", { newLobby "L1" "@A" with
           positions :=
             [("@A", ⟨JVal.jstr "abc", JVal.jnum 0, JVal.jnum 0⟩)] })]
         clients := [("L1", [1])] },
       [Out.deliver 1 (BMsg.positionDelta "L1" "@A" (JVal.jstr "abc")
         (JVal.jnum 0) (JVal.jnum 0))]) := rfl

theorem claim_C10_witness :
    ∃ lobby',
      findByLobbyId (handleUpdatePosition [] 1 wState1 "L1" "@A"
          (JVal.jstr "abc") (JVal.jnum 0) (JVal.jnum 0)).1.lobbies "L1" =
        some ("@A", lobby') ∧
      getA lobby'.positions "@A" =
        some ⟨JVal.jstr "abc", JVal.jnum 0, JVal.jnum 0⟩ ∧
      (handleUpdatePosition [] 1 wState1 "L1" "@A" (JVal.jstr "abc")
          (JVal.jnum 0) (JVal.jnum 0)).2 =
        [1].map (fun k => Out.deliver k (BMsg.positionDelta "L1" "@A"
          (JVal.jstr "abc") (JVal.jnum 0) (JVal.jnum 0))) :=
  claim_C10_update_position_stores (by rfl) (by decide) 1 (JVal.jstr "abc")
    (JVal.jnum 0) (JVal.jnum 0) (by rfl)

/-- C2 (amended): on the live channel a join request for an existing
started lobby is rejected with the already-started error — that check
runs after the valid-handle, lobby-exists, not-full and
not-already-member checks — and the whole server state is unchanged;
but the mirroring HTTP endpoint `/join_lobby` performs no started
check at all: the same request there succeeds and appends the joiner
to the started lobby. -/
theorem claim_C2_join_started {s : ServerState} {creator u : String}
    {lobby : Lobby} (hv : is_valid_username creator = true)
    (hv2 : is_valid_username u = true)
    (hc : getA s.lobbies creator = some lobby)
    (hfull : lobby.players.length < lobby.max_players)
    (hmem : u ∉ lobby.players) (hst : lobby.status = "started")
    (dead : List Nat) (ws : Nat) :
    handleJoin dead ws s creator u =
      (s, [Out.send ws (SMsg.err "Game already started, cannot join")]) ∧
    (join_lobby dead s creator u).2.1 =
      HttpResp.joinOk lobby.lobby_id creator (lobby.players ++ [u])
        lobby.status lobby.messages := by
  have hval : ¬((!(is_valid_username creator && is_valid_username u)) = true) := by
    rw [hv, hv2]
    decide
  constructor
  · unfold handleJoin
    rw [if_neg hval, hc]
    dsimp only
    rw [if_neg (not_le.mpr hfull), if_neg hmem, if_pos hst]
  · unfold join_lobby
    rw [if_neg hval, hc]
    dsimp only
    rw [if_neg (not_le.mpr hfull), if_neg hmem]

/-- C2 counterexample: joining the started lobby of `wStateC8` through
the HTTP endpoint is *not* rejected: the response is a success payload
(status `started`) and the member list now contains the joiner. -/
theorem claim_C2_counterexample :
    (join_lobby [] wStateC8 "@A" "@B").2.1 =
      HttpResp.joinOk "L1" "@A" ["@A", "@B"] "started" [] ∧
    (findByLobbyId (join_lobby [] wStateC8 "@A" "@B").1.lobbies "L1").map
      (fun p => p.2.players) = some ["@A", "@B"] :=
  ⟨rfl, rfl⟩

theorem claim_C2_witness :
    handleJoin [] 9 wStateC8 "@A" "@B" =
      (wStateC8, [Out.send 9 (SMsg.err "Game already started, cannot join")]) ∧
    (join_lobby [] wStateC8 "@A" "@B").2.1 =
      HttpResp.joinOk wStartedLobby.lobby_id "@A"
        (wStartedLobby.players ++ ["@B"]) wStartedLobby.status
        wStartedLobby.messages :=
  claim_C2_join_started (by rfl) (by rfl) (by rfl) (by decide) (by decide)
    (by rfl) [] 9

theorem getA_some_mem_keys {α : Type} {m : List (String × α)} {k : String}
    {v : α} (h : getA m k = some v) : k ∈ keysA m :=
  List.mem_map.mpr ⟨(k, v), getA_mem h, rfl⟩

theorem isEmpty_false_of_ne_nil {α : Type} {xs : List α} (h : xs ≠ []) :
    xs.isEmpty = false := by
  cases xs with
  | nil => exact absurd rfl h
  | cons a as => rfl

theorem notify_clients_fst_noDead (cl : List (String × List Nat))
    (lid : String) (m : BMsg) : (notify_clients [] cl lid m).1 = cl := by
  unfold notify_clients
  cases h : getA cl lid with
  | none => rfl
  | some conns =>
    simp only [notifyLoop_noDead]
    exact setA_getA_self h

theorem pruneLoop_clients_noDead (lid : String) :
    ∀ (q : List String) (lobby : Lobby) (cl : List (String × List Nat))
      (outs : List Out), (pruneLoop [] lid q lobby cl outs).2.1 = cl := by
  intro q
  induction q with
  | nil => intro lobby cl outs; rfl
  | cons w rest ih =>
    intro lobby cl outs
    simp only [pruneLoop]
    split
    · rw [notify_clients_fst_noDead]
      exact ih _ _ _
    · exact ih _ _ _

theorem pruneLoop_outs_mono (dead : List Nat) (lid : String) :
    ∀ (q : List String) (lobby : Lobby) (cl : List (String × List Nat))
      (outs : List Out) (x : Out), x ∈ outs →
      x ∈ (pruneLoop dead lid q lobby cl outs).2.2 := by
  intro q
  induction q with
  | nil => intro lobby cl outs x hx; exact hx
  | cons w rest ih =>
    intro lobby cl outs x hx
    simp only [pruneLoop]
    split
    · exact ih _ _ _ x (List.mem_append_left _ hx)
    · exact ih _ _ _ x hx

theorem pruneLoop_noRemove (dead : List Nat) (lid : String) :
    ∀ (q : List String) (lobby : Lobby) (cl : List (String × List Nat))
      (outs : List Out), (∀ w ∈ q, w = lobby.creator) →
      pruneLoop dead lid q lobby cl outs = (lobby, cl, outs) := by
  intro q
  induction q with
  | nil => intro lobby cl outs h; rfl
  | cons w rest ih =>
    intro lobby cl outs h
    simp only [pruneLoop]
    rw [if_neg (not_not_intro (h w (List.mem_cons_self _ _)))]
    exact ih _ _ _ (fun v hv => h v (List.mem_cons_of_mem _ hv))

theorem pruneLoop_clean (dead : List Nat) (lid : String) :
    ∀ (q : List String) (lobby : Lobby) (cl : List (String × List Nat))
      (outs : List Out),
      lobby.players.Nodup → lobby.ready_players.Nodup →
      (∀ v ∈ lobby.players, v ≠ lobby.creator → v ∈ q) →
      (∀ v ∈ lobby.ready_players, v ≠ lobby.creator → v ∈ q) →
      (∀ v, v ≠ lobby.creator → getA lobby.scores v ≠ none → v ∈ q) →
      (∀ v, v ≠ lobby.creator → getA lobby.positions v ≠ none → v ∈ q) →
      ∀ u, u ≠ lobby.creator →
        u ∉ (pruneLoop dead lid q lobby cl outs).1.players ∧
        getA (pruneLoop dead lid q lobby cl outs).1.scores u = none ∧
        getA (pruneLoop dead lid q lobby cl outs).1.positions u = none ∧
        u ∉ (pruneLoop dead lid q lobby cl outs).1.ready_players := by
  intro q
  induction q with
  | nil =>
    intro lobby cl outs hpn hrn hp hr hs hpos u hu
    refine ⟨?_, ?_, ?_, ?_⟩
    · intro hmem
      exact absurd (hp u hmem hu) (List.not_mem_nil u)
    · by_cases h : getA lobby.scores u = none
      · exact h
      · exact absurd (hs u hu h) (List.not_mem_nil u)
    · by_cases h : getA lobby.positions u = none
      · exact h
      · exact absurd (hpos u hu h) (List.not_mem_nil u)
    · intro hmem
      exact absurd (hr u hmem hu) (List.not_mem_nil u)
  | cons w rest ih =>
    intro lobby cl outs hpn hrn hp hr hs hpos u hu
    simp only [pruneLoop]
    split
    · rename_i hw
      refine ih _ _ _ (hpn.erase w) ?_ ?_ ?_ ?_ ?_ u hu
      · dsimp only
        split
        · exact hrn.erase w
        · exact hrn
      · intro v hv hvc
        obtain ⟨hvw, hvp⟩ := (List.Nodup.mem_erase_iff hpn).mp hv
        rcases List.mem_cons.mp (hp v hvp hvc) with h1 | h1
        · exact absurd h1 hvw
        · exact h1
      · dsimp only
        split
        · rename_i hwin
          intro v hv hvc
          obtain ⟨hvw, hvr⟩ := (List.Nodup.mem_erase_iff hrn).mp hv
          rcases List.mem_cons.mp (hr v hvr hvc) with h1 | h1
          · exact absurd h1 hvw
          · exact h1
        · rename_i hwout
          intro v hv hvc
          rcases List.mem_cons.mp (hr v hv hvc) with h1 | h1
          · exact absurd (h1 ▸ hv) hwout
          · exact h1
      · intro v hvc hne
        by_cases hvw : v = w
        · subst hvw
          exact absurd (getA_eraseA_self _ _) hne
        · rw [getA_eraseA_ne _ _ _ hvw] at hne
          rcases List.mem_cons.mp (hs v hvc hne) with h1 | h1
          · exact absurd h1 hvw
          · exact h1
      · intro v hvc hne
        by_cases hvw : v = w
        · subst hvw
          exact absurd (getA_eraseA_self _ _) hne
        · rw [getA_eraseA_ne _ _ _ hvw] at hne
          rcases List.mem_cons.mp (hpos v hvc hne) with h1 | h1
          · exact absurd h1 hvw
          · exact h1
    · rename_i hw
      have hwc : w = lobby.creator := not_not.mp hw
      refine ih _ _ _ hpn hrn ?_ ?_ ?_ ?_ u hu
      · intro v hv hvc
        rcases List.mem_cons.mp (hp v hv hvc) with h1 | h1
        · exact absurd (h1.trans hwc) hvc
        · exact h1
      · intro v hv hvc
        rcases List.mem_cons.mp (hr v hv hvc) with h1 | h1
        · exact absurd (h1.trans hwc) hvc
        · exact h1
      · intro v hvc hne
        rcases List.mem_cons.mp (hs v hvc hne) with h1 | h1
        · exact absurd (h1.trans hwc) hvc
        · exact h1
      · intro v hvc hne
        rcases List.mem_cons.mp (hpos v hvc hne) with h1 | h1
        · exact absurd (h1.trans hwc) hvc
        · exact h1

theorem pruneLoop_delivers (lid : String) :
    ∀ (q : List String) (lobby : Lobby) (cl : List (String × List Nat))
      (outs : List Out) (conns : List Nat), getA cl lid = some conns →
      (∃ w ∈ q, w ≠ lobby.creator) →
      ∀ k ∈ conns,
        Out.deliver k (BMsg.roster lid
          (pruneLoop [] lid q lobby cl outs).1.players
          (pruneLoop [] lid q lobby cl outs).1.status) ∈
          (pruneLoop [] lid q lobby cl outs).2.2 := by
  intro q
  induction q with
  | nil =>
    intro lobby cl outs conns hcl hex k hk
    obtain ⟨w, hw, _⟩ := hex
    exact absurd hw (List.not_mem_nil w)
  | cons w rest ih =>
    intro lobby cl outs conns hcl hex k hk
    simp only [pruneLoop]
    split
    · rename_i hw
      rw [notify_clients_noDead hcl]
      dsimp only
      by_cases hre : ∃ w' ∈ rest,
          w' ≠ ({ lobby with
            players := lobby.players.erase w
            scores := eraseA lobby.scores w
            positions := eraseA lobby.positions w
            ready_players :=
              if w ∈ lobby.ready_players then lobby.ready_players.erase w
              else lobby.ready_players } : Lobby).creator
      · exact ih _ cl _ conns hcl hre k hk
      · push_neg at hre
        rw [pruneLoop_noRemove [] lid rest _ cl _ hre]
        apply List.mem_append_right
        exact List.mem_map.mpr ⟨k, hk, rfl⟩
    · rename_i hw
      have hwc : w = lobby.creator := not_not.mp hw
      obtain ⟨w', hw', hwc'⟩ := hex
      rcases List.mem_cons.mp hw' with h1 | h1
      · exact absurd (h1.trans hwc) hwc'
      · exact ih _ _ _ conns hcl ⟨w', h1, hwc'⟩ k hk

theorem discLobbyLoop_nomatch (dead : List Nat) (lid : String) :
    ∀ (L : List (String × Lobby)) (cl : List (String × List Nat))
      (outs : List Out), (∀ p ∈ L, p.2.lobby_id ≠ lid) →
      discLobbyLoop dead lid L cl outs = (L, cl, outs) := by
  intro L
  induction L with
  | nil => intro cl outs h; rfl
  | cons p rest ih =>
    intro cl outs h
    obtain ⟨c, l⟩ := p
    simp only [discLobbyLoop]
    rw [if_neg (h (c, l) (List.mem_cons_self _ _))]
    rw [ih _ _ (fun r hr => h r (List.mem_cons_of_mem _ hr))]

theorem discLobbyLoop_decomp (dead : List Nat) (lid : String) :
    ∀ (L1 rest : List (String × Lobby)) (cl : List (String × List Nat))
      (outs : List Out), (∀ p ∈ L1, p.2.lobby_id ≠ lid) →
      discLobbyLoop dead lid (L1 ++ rest) cl outs =
        (L1 ++ (discLobbyLoop dead lid rest cl outs).1,
         (discLobbyLoop dead lid rest cl outs).2.1,
         (discLobbyLoop dead lid rest cl outs).2.2) := by
  intro L1
  induction L1 with
  | nil => intro rest cl outs h; rfl
  | cons p L1' ih =>
    intro rest cl outs h
    obtain ⟨c, l⟩ := p
    simp only [List.cons_append, discLobbyLoop]
    rw [if_neg (h (c, l) (List.mem_cons_self _ _))]
    simp only [List.append_eq]
    rw [ih rest _ _ (fun r hr => h r (List.mem_cons_of_mem _ hr))]

theorem discLobbyLoop_cons_match_empty (dead : List Nat) (lid : String)
    (c : String) (l : Lobby) (L : List (String × Lobby))
    (cl : List (String × List Nat)) (outs : List Out)
    (hmatch : l.lobby_id = lid)
    (hempty : ((getA cl lid).getD []).isEmpty = true) :
    discLobbyLoop dead lid ((c, l) :: L) cl outs =
      discLobbyLoop dead lid L cl outs := by
  simp only [discLobbyLoop]
  rw [if_pos hmatch, if_pos hempty]

theorem discLobbyLoop_cons_match_nonempty (dead : List Nat) (lid : String)
    (c : String) (l : Lobby) (L : List (String × Lobby))
    (cl : List (String × List Nat)) (outs : List Out)
    (hmatch : l.lobby_id = lid)
    (hempty : ((getA cl lid).getD []).isEmpty = false) :
    discLobbyLoop dead lid ((c, l) :: L) cl outs =
      ((c, (pruneLoop dead lid l.players l cl outs).1) ::
        (discLobbyLoop dead lid L (pruneLoop dead lid l.players l cl outs).2.1
          (pruneLoop dead lid l.players l cl outs).2.2).1,
       (discLobbyLoop dead lid L (pruneLoop dead lid l.players l cl outs).2.1
          (pruneLoop dead lid l.players l cl outs).2.2).2.1,
       (discLobbyLoop dead lid L (pruneLoop dead lid l.players l cl outs).2.1
          (pruneLoop dead lid l.players l cl outs).2.2).2.2) := by
  simp only [discLobbyLoop]
  rw [if_pos hmatch, if_neg (by rw [hempty]; exact Bool.false_ne_true)]

/-- C1 (amended): when a connection in some lobby's connection set
disconnects, the connection is removed from that set; if the set
thereby becomes empty the lobby's *registry* entry is removed, but —
contrary to the original claim — the connection-set entry itself
survives as an empty list; if the set stays non-empty, every
non-creator handle is removed from the lobby's members, scores,
positions and ready list, and the final roster is re-broadcast to the
remaining connections.  The hypotheses state the well-formedness facts
that hold of every reachable server state: the matching registry entry
is unique, member/ready lists have no duplicates, the ready list is a
subset of the members, and score/position keys lie among the
members. -/
theorem claim_C1_disconnect (s : ServerState) (ws : Nat) {lid : String}
    {conns : List Nat}
    (hfind : findWsEntry s.clients ws = some (lid, conns))
    (hnodup : conns.Nodup)
    {L1 L2 : List (String × Lobby)} {c : String} {l : Lobby}
    (hdecomp : s.lobbies = L1 ++ (c, l) :: L2)
    (hL1 : ∀ p ∈ L1, p.2.lobby_id ≠ lid) (hL2 : ∀ p ∈ L2, p.2.lobby_id ≠ lid)
    (hmatch : l.lobby_id = lid)
    (hpn : l.players.Nodup) (hrn : l.ready_players.Nodup)
    (hrp : ∀ k ∈ l.ready_players, k ∈ l.players)
    (hsc : ∀ k ∈ keysA l.scores, k ∈ l.players)
    (hps : ∀ k ∈ keysA l.positions, k ∈ l.players) :
    ws ∉ conns.erase ws ∧
    (conns.erase ws = [] →
      (handle_disconnect [] ws s).1.lobbies = L1 ++ L2 ∧
      getA (handle_disconnect [] ws s).1.clients lid = some [] ∧
      (handle_disconnect [] ws s).2 = []) ∧
    (conns.erase ws ≠ [] →
      ∃ l', (handle_disconnect [] ws s).1.lobbies = L1 ++ (c, l') :: L2 ∧
        getA (handle_disconnect [] ws s).1.clients lid =
          some (conns.erase ws) ∧
        (∀ u ∈ l.players, u ≠ l.creator →
          u ∉ l'.players ∧ getA l'.scores u = none ∧
          getA l'.positions u = none ∧ u ∉ l'.ready_players) ∧
        ((∃ u ∈ l.players, u ≠ l.creator) →
          ∀ k ∈ conns.erase ws,
            Out.deliver k (BMsg.roster lid l'.players l'.status) ∈
              (handle_disconnect [] ws s).2)) := by
  refine ⟨fun hmem => ((List.Nodup.mem_erase_iff hnodup).mp hmem).1 rfl,
    ?_, ?_⟩
  · intro hA
    have hd : handle_disconnect [] ws s =
        ({ lobbies := L1 ++ L2, clients := setA s.clients lid [] }, []) := by
      unfold handle_disconnect
      rw [hfind]
      dsimp only
      rw [hdecomp, hA]
      rw [discLobbyLoop_decomp [] lid L1 ((c, l) :: L2) _ _ hL1]
      rw [discLobbyLoop_cons_match_empty [] lid c l L2 _ _ hmatch
        (by rw [getA_setA_self]; rfl)]
      rw [discLobbyLoop_nomatch [] lid L2 _ _ hL2]
    rw [hd]
    exact ⟨rfl, getA_setA_self _ _ _, rfl⟩
  · intro hB
    have hempty :
        ((getA (setA s.clients lid (conns.erase ws)) lid).getD []).isEmpty
          = false := by
      rw [getA_setA_self]
      exact isEmpty_false_of_ne_nil hB
    have hd : handle_disconnect [] ws s =
        ({ lobbies := L1 ++ (c, (pruneLoop [] lid l.players l
             (setA s.clients lid (conns.erase ws)) []).1) :: L2
           clients := setA s.clients lid (conns.erase ws) },
         (pruneLoop [] lid l.players l
           (setA s.clients lid (conns.erase ws)) []).2.2) := by
      unfold handle_disconnect
      rw [hfind]
      dsimp only
      rw [hdecomp]
      rw [discLobbyLoop_decomp [] lid L1 ((c, l) :: L2) _ _ hL1]
      rw [discLobbyLoop_cons_match_nonempty [] lid c l L2 _ _ hmatch hempty]
      rw [pruneLoop_clients_noDead]
      rw [discLobbyLoop_nomatch [] lid L2 _ _ hL2]
    refine ⟨(pruneLoop [] lid l.players l
      (setA s.clients lid (conns.erase ws)) []).1, ?_, ?_, ?_, ?_⟩
    · rw [hd]
    · rw [hd]
      exact getA_setA_self _ _ _
    · intro u hup huc
      exact pruneLoop_clean [] lid l.players l
        (setA s.clients lid (conns.erase ws)) [] hpn hrn
        (fun v hv _ => hv) (fun v hv _ => hrp v hv)
        (fun v hvc hne => by
          obtain ⟨x, hx⟩ := Option.ne_none_iff_exists'.mp hne
          exact hsc v (getA_some_mem_keys hx))
        (fun v hvc hne => by
          obtain ⟨x, hx⟩ := Option.ne_none_iff_exists'.mp hne
          exact hps v (getA_some_mem_keys hx))
        u huc
    · intro hex k hk
      rw [hd]
      exact pruneLoop_delivers lid l.players l
        (setA s.clients lid (conns.erase ws)) [] (conns.erase ws)
        (getA_setA_self _ _ _) hex k hk

/-- The two-member lobby used by the C1 witness. -/
def wDiscLobby : Lobby :=
  { newLobby "L1" "@A" with
    players := ["@A", "@B"]
    scores := [("@A", 0), ("@B", 0)]
    positions := [("@A", origin), ("@B", origin)]
    ready_players := ["@B"] }

/-- The server state holding `wDiscLobby` with two connections. -/
def wDiscState : ServerState :=
  { lobbies := [("@A", wDiscLobby)], clients := [("L1", [1, 2])] }

theorem claim_C1_witness :
    2 ∉ List.erase [1, 2] 2 ∧
    (List.erase [1, 2] 2 = [] →
      (handle_disconnect [] 2 wDiscState).1.lobbies = [] ++ [] ∧
      getA (handle_disconnect [] 2 wDiscState).1.clients "L1" = some [] ∧
      (handle_disconnect [] 2 wDiscState).2 = []) ∧
    (List.erase [1, 2] 2 ≠ [] →
      ∃ l', (handle_disconnect [] 2 wDiscState).1.lobbies =
          [] ++ ("@A", l') :: [] ∧
        getA (handle_disconnect [] 2 wDiscState).1.clients "L1" =
          some (List.erase [1, 2] 2) ∧
        (∀ u ∈ wDiscLobby.players, u ≠ wDiscLobby.creator →
          u ∉ l'.players ∧ getA l'.scores u = none ∧
          getA l'.positions u = none ∧ u ∉ l'.ready_players) ∧
        ((∃ u ∈ wDiscLobby.players, u ≠ wDiscLobby.creator) →
          ∀ k ∈ List.erase [1, 2] 2,
            Out.deliver k (BMsg.roster "L1" l'.players l'.status) ∈
              (handle_disconnect [] 2 wDiscState).2)) :=
  @claim_C1_disconnect wDiscState 2 "L1" [1, 2] (by rfl) (by decide) [] []
    "@A" wDiscLobby (by rfl) (by decide) (by decide) (by rfl) (by decide)
    (by decide) (by decide) (by decide) (by decide)

/-- A one-connection lobby state for the C1 counterexample. -/
def wDisc1State : ServerState :=
  { lobbies := [("@A", newLobby "L1" "@A")], clients := [("L1", [7])] }

/-- C1 counterexample: disconnecting the only connection of lobby `L1`
deletes the registry entry (lobbies become empty), but the
connection-set entry for `L1` is *not* removed — it remains, holding
the empty list — refuting the claim that destruction removes "both its
registry entry and its connection-set entry ... entirely". -/
theorem claim_C1_counterexample :
    (handle_disconnect [] 7 wDisc1State).1.lobbies = [] ∧
    getA (handle_disconnect [] 7 wDisc1State).1.clients "L1" = some [] :=
  ⟨rfl, rfl⟩
